import Mathlib

/-!
Verification of the dental-clinic receptionist core: a shallow embedding of
`receptionist.py` (the `ConversationState` record and the `ReceptionistBrain`
orchestrator) and of `llm_utils.LLMHandler.parse_json_from_text`, together with
theorems settling the specification claims.

Modelling conventions:
* Python values that flow through the orchestrator (parsed JSON, session-state
  attributes, collaborator results) are modelled by the inductive `Clinic.Json`;
  Python `None` is `Json.null`.  JSON numbers are modelled as integers: the
  payloads exchanged with the language model in this repository (routing
  decisions, name extractions, slot-collection results, database rows) carry
  only strings, integers, booleans and nulls, so fraction/exponent number forms
  are outside the model.
* The session state is modelled as the object's attribute dictionary: an
  association list from attribute names to values, exactly the fields created
  by `ConversationState.__init__`.
* The external collaborators (database executor `db_utils.execute_query`,
  calendar creator `get_calendar_link.create_google_calendar_link`) never
  raise — both catch every exception internally — so they are modelled as
  total functions returning `Option` results, bundled in `Clinic.Collab`.
  The language-model responses consumed during one turn are the
  `Clinic.LlmTexts` inputs (`llm.query` returns either text or `None`).
* Python exceptions inside the orchestrator (attribute errors on `None`,
  `KeyError`, `TypeError` from `.replace` on non-strings, `IndexError` on short
  rows) are modelled with `Except Unit`; each `try`/`except` block of the
  source catches them exactly where the source does.
* Side effects are recorded in an explicit trace (`Clinic.Effect`), tagging
  each client-existence lookup with the call site that issued it.
-/

namespace Clinic

/-- Python/JSON values as produced by `json.loads` and stored in the session
state.  `null` doubles as Python `None`. -/
inductive Json where
  | null : Json
  | bool (b : Bool) : Json
  | num (n : Int) : Json
  | str (s : String) : Json
  | arr (elems : List Json) : Json
  | obj (fields : List (String × Json)) : Json
deriving Repr

/-- Python truthiness (`bool(x)`) for the modelled values. -/
def Json.truthy : Json → Bool
  | .null => false
  | .bool b => b
  | .num n => n != 0
  | .str s => !s.isEmpty
  | .arr xs => !xs.isEmpty
  | .obj kvs => !kvs.isEmpty

/-- Python `x == "lit"` for a dynamic value `x`: true only when `x` is that
very string. -/
def jsonEqStr : Json → String → Bool
  | .str s, t => s == t
  | _, _ => false

/-- `d.get(k, default)` on a value known to be a dict (non-dicts use `pyGetD`).
Parsed JSON objects have unique keys (see `pyDictInsert`), so the first match
is the binding. -/
def Json.getD : Json → String → Json → Json
  | .obj kvs, k, d => (((kvs.find? (fun p => p.1 == k)).map Prod.snd).getD d)
  | _, _, d => d

/-- `d.get(k, default)` as executed on an arbitrary Python value: raises
`AttributeError` unless `d` is a dict. -/
def pyGetD : Json → String → Json → Except Unit Json
  | .obj kvs, k, d => .ok (Json.getD (.obj kvs) k d)
  | _, _, _ => .error ()

/-- `d.get(k)` (default `None`). -/
def pyGet (v : Json) (k : String) : Except Unit Json :=
  pyGetD v k .null

/-- `d[k]` bracket access: `KeyError` when absent, `TypeError` on non-dicts. -/
def pyIndex : Json → String → Except Unit Json
  | .obj kvs, k =>
    match kvs.find? (fun p => p.1 == k) with
    | some p => .ok p.2
    | none => .error ()
  | _, _ => .error ()

/-- Insertion into a Python dict under construction: an existing key is
overwritten in place, a new key is appended (insertion order preserved). -/
def pyDictInsert (kvs : List (String × Json)) (k : String) (v : Json) :
    List (String × Json) :=
  if kvs.any (fun p => p.1 == k) then
    kvs.map (fun p => if p.1 == k then (k, v) else p)
  else
    kvs ++ [(k, v)]

mutual

/-- Python `repr(x)` for the modelled values (string contents are reproduced
verbatim; `repr`'s own escape rendering inside quotes is not modelled — no
claim inspects rendered containers). -/
def pyRepr : Json → String
  | .null => "None"
  | .bool true => "True"
  | .bool false => "False"
  | .num n => toString n
  | .str s => "\x27" ++ s ++ "\x27"
  | .arr xs => "[" ++ pyReprList xs ++ "]"
  | .obj kvs => "\x7b" ++ pyReprFields kvs ++ "\x7d"

/-- Comma-joined `repr` of list elements. -/
def pyReprList : List Json → String
  | [] => ""
  | [x] => pyRepr x
  | x :: y :: xs => pyRepr x ++ ", " ++ pyReprList (y :: xs)

/-- Comma-joined `repr` of dict entries. -/
def pyReprFields : List (String × Json) → String
  | [] => ""
  | [(k, v)] => "\x27" ++ k ++ "\x27: " ++ pyRepr v
  | (k, v) :: y :: xs =>
    "\x27" ++ k ++ "\x27: " ++ pyRepr v ++ ", " ++ pyReprFields (y :: xs)

end

/-- Python `str(x)` for the modelled values: like `repr` except that a
top-level string is returned verbatim. -/
def pyStr : Json → String
  | .str s => s
  | v => pyRepr v

/-- The single-quote character. -/
def squote : Char := Char.ofNat 39

/-- `s.replace("'", "''")`, the quote escaping used before SQL interpolation:
every single quote is doubled. -/
def pyEscape (s : String) : String :=
  String.mk (s.toList.foldr
    (fun c acc => if c = squote then squote :: squote :: acc else c :: acc)
    [])

/-- Python `str.capitalize()`: first character uppercased, the rest
lowercased. -/
def pyCapitalize (s : String) : String :=
  match s.toList with
  | [] => ""
  | c :: cs => String.mk (c.toUpper :: cs.map Char.toLower)

/-! ### `json.loads` (Python standard library), as consumed by
`parse_json_from_text`.  The grammar is standard JSON restricted to integer
numbers (see the header note); `\uXXXX` escapes decode a single code unit
(surrogate-pair recombination is outside the model). -/

/-- The opening brace character. -/
def lbrace : Char := Char.ofNat 123

/-- The closing brace character. -/
def rbrace : Char := Char.ofNat 125

/-- JSON insignificant whitespace. -/
def jsonWs (c : Char) : Bool :=
  c == ' ' || c == '\t' || c == '\n' || c == '\r'

/-- Drop leading JSON whitespace. -/
def skipWs : List Char → List Char
  | [] => []
  | c :: cs => if jsonWs c then skipWs cs else c :: cs

/-- Hex digit value (code points 0-9, a-f, A-F). -/
def hexVal (c : Char) : Option Nat :=
  let n := c.toNat
  if 48 ≤ n && n ≤ 57 then some (n - 48)
  else if 97 ≤ n && n ≤ 102 then some (n - 87)
  else if 65 ≤ n && n ≤ 70 then some (n - 55)
  else none

/-- Parse the remainder of a JSON string literal (the opening quote already
consumed), handling the escape sequences accepted by `json.loads` and
rejecting raw control characters. -/
def parseJsonString (fuel : Nat) (cs : List Char) (acc : List Char) :
    Option (String × List Char) :=
  match fuel, cs with
  | 0, _ => none
  | _, [] => none
  | fuel + 1, c :: rest =>
    if c == '"' then some (String.mk acc.reverse, rest)
    else if c == '\\' then
      match rest with
      | [] => none
      | e :: rest' =>
        if e == '"' then parseJsonString fuel rest' ('"' :: acc)
        else if e == '\\' then parseJsonString fuel rest' ('\\' :: acc)
        else if e == '/' then parseJsonString fuel rest' ('/' :: acc)
        else if e == 'b' then parseJsonString fuel rest' (Char.ofNat 8 :: acc)
        else if e == 'f' then parseJsonString fuel rest' (Char.ofNat 12 :: acc)
        else if e == 'n' then parseJsonString fuel rest' ('\n' :: acc)
        else if e == 'r' then parseJsonString fuel rest' ('\r' :: acc)
        else if e == 't' then parseJsonString fuel rest' ('\t' :: acc)
        else if e == 'u' then
          match rest' with
          | h1 :: h2 :: h3 :: h4 :: rest'' =>
            match hexVal h1, hexVal h2, hexVal h3, hexVal h4 with
            | some a, some b, some c2, some d =>
              parseJsonString fuel rest''
                (Char.ofNat (((a * 16 + b) * 16 + c2) * 16 + d) :: acc)
            | _, _, _, _ => none
          | _ => none
        else none
    else if c.toNat < 32 then none
    else parseJsonString fuel rest (c :: acc)

/-- Parse a JSON integer (optional minus, no leading zeros, and — reflecting
the integer-number restriction — no fraction or exponent may follow). -/
def parseJsonInt (cs : List Char) : Option (Int × List Char) :=
  let core : List Char → Option (Nat × List Char) := fun ds =>
    match ds with
    | [] => none
    | d :: rest =>
      if d == '0' then
        match rest with
        | r :: _ => if r.isDigit then none else some (0, rest)
        | [] => some (0, [])
      else if d.isDigit then
        let digits := (d :: rest).takeWhile Char.isDigit
        let value := digits.foldl (fun a c => a * 10 + (c.toNat - '0'.toNat)) 0
        some (value, (d :: rest).dropWhile Char.isDigit)
      else none
  match cs with
  | '-' :: rest =>
    match core rest with
    | some (n, rest') =>
      match rest' with
      | r :: _ => if r == '.' || r == 'e' || r == 'E' then none
                  else some (-(n : Int), rest')
      | [] => some (-(n : Int), [])
    | none => none
  | _ =>
    match core cs with
    | some (n, rest') =>
      match rest' with
      | r :: _ => if r == '.' || r == 'e' || r == 'E' then none
                  else some ((n : Int), rest')
      | [] => some ((n : Int), [])
    | none => none

mutual

/-- Parse one JSON value (leading whitespace skipped here). -/
def parseJsonVal : Nat → List Char → Option (Json × List Char)
  | 0, _ => none
  | fuel + 1, cs =>
    match skipWs cs with
    | [] => none
    | c :: rest =>
      if c == lbrace then parseJsonObj fuel rest
      else if c == '[' then parseJsonArr fuel rest
      else if c == '"' then
        match parseJsonString (fuel + 1) rest [] with
        | some (s, rest') => some (.str s, rest')
        | none => none
      else if c == 'n' then
        match rest with
        | 'u' :: 'l' :: 'l' :: rest' => some (.null, rest')
        | _ => none
      else if c == 't' then
        match rest with
        | 'r' :: 'u' :: 'e' :: rest' => some (.bool true, rest')
        | _ => none
      else if c == 'f' then
        match rest with
        | 'a' :: 'l' :: 's' :: 'e' :: rest' => some (.bool false, rest')
        | _ => none
      else
        match parseJsonInt (c :: rest) with
        | some (n, rest') => some (.num n, rest')
        | none => none

/-- Parse the inside of a JSON object (the `{` already consumed); duplicate
keys collapse as in Python dict construction. -/
def parseJsonObj : Nat → List Char → Option (Json × List Char)
  | 0, _ => none
  | fuel + 1, cs =>
    match skipWs cs with
    | [] => none
    | c :: rest =>
      if c == rbrace then some (.obj [], rest)
      else if c == '"' then
        match parseJsonString (fuel + 1) rest [] with
        | some (k, rest') => parseJsonMembers fuel rest' k []
        | none => none
      else none

/-- Parse `: value (, key : value)* }`, accumulating dict entries; entered
with the next key already read. -/
def parseJsonMembers : Nat → List Char → String → List (String × Json) →
    Option (Json × List Char)
  | 0, _, _, _ => none
  | fuel + 1, cs, key, acc =>
    match skipWs cs with
    | ':' :: rest =>
      match parseJsonVal fuel rest with
      | some (v, rest') =>
        let acc' := pyDictInsert acc key v
        match skipWs rest' with
        | ',' :: rest'' =>
          match skipWs rest'' with
          | '"' :: rest''' =>
            match parseJsonString (fuel + 1) rest''' [] with
            | some (k', rest4) => parseJsonMembers fuel rest4 k' acc'
            | none => none
          | _ => none
        | c :: rest'' =>
          if c == rbrace then some (.obj acc', rest'') else none
        | [] => none
      | none => none
    | _ => none

/-- Parse the inside of a JSON array (the `[` already consumed). -/
def parseJsonArr : Nat → List Char → Option (Json × List Char)
  | 0, _ => none
  | fuel + 1, cs =>
    match skipWs cs with
    | ']' :: rest => some (.arr [], rest)
    | _ =>
      match parseJsonVal fuel cs with
      | some (v, rest') => parseJsonElems fuel rest' [v]
      | none => none

/-- Parse `(, value)* ]`, accumulating array elements. -/
def parseJsonElems : Nat → List Char → List Json →
    Option (Json × List Char)
  | 0, _, _ => none
  | fuel + 1, cs, acc =>
    match skipWs cs with
    | ',' :: rest =>
      match parseJsonVal fuel rest with
      | some (v, rest') => parseJsonElems fuel rest' (v :: acc)
      | none => none
    | ']' :: rest => some (.arr acc.reverse, rest)
    | _ => none

end

/-- `json.loads(s)`: one JSON value spanning the whole string (surrounding
whitespace allowed); `none` models `JSONDecodeError`. -/
def jsonLoads (s : String) : Option Json :=
  match parseJsonVal (2 * s.length + 2) s.toList with
  | some (j, rest) => if (skipWs rest).isEmpty then some j else none
  | none => none

/-! ### `LLMHandler.parse_json_from_text` (`llm_utils.py`) -/

/-- Index of the first `{` in the character list. -/
def firstLbrace (cs : List Char) : Option Nat :=
  cs.findIdx? (fun c => c == lbrace)

/-- Index of the last `}` in the character list. -/
def lastRbrace (cs : List Char) : Option Nat :=
  match cs.reverse.findIdx? (fun c => c == rbrace) with
  | some k => some (cs.length - 1 - k)
  | none => none

/-- `re.search(r"\x7b.*\x7d", text, re.DOTALL)`: the leftmost match of a
greedy brace-delimited pattern is the span from the first `{` to the last
`}` of the whole text, provided the latter comes after the former. -/
def braceSpan (s : String) : Option String :=
  let cs := s.toList
  match firstLbrace cs, lastRbrace cs with
  | some i, some j =>
    if i < j then some (String.mk ((cs.drop i).take (j - i + 1))) else none
  | _, _ => none

/-- `LLMHandler.parse_json_from_text(text)`.  The argument is the raw
`llm.query` output (text, or `none` for Python `None`); the result is the
parsed dict, or `Json.null` for Python `None`. -/
def parse_json_from_text : Option String → Json
  | none => .null
  | some t =>
    if t.isEmpty then .null
    else
      match braceSpan t with
      | none => .null
      | some span =>
        match jsonLoads span with
        | some j => j
        | none => .null

/-! ### `ConversationState` (`receptionist.py`) -/

/-- The session-state object's attribute dictionary. -/
abbrev PyState := List (String × Json)

/-- `getattr(self, k)`: first binding of `k` (attributes are unique). -/
def attr (st : PyState) (k : String) : Json :=
  ((st.find? (fun p => p.1 == k)).map Prod.snd).getD .null

/-- `hasattr(self, k)`. -/
def hasattr (st : PyState) (k : String) : Bool :=
  st.any (fun p => p.1 == k)

/-- `setattr(self, k, v)`: update in place, or append a new attribute. -/
def setattr (st : PyState) (k : String) (v : Json) : PyState :=
  if st.any (fun p => p.1 == k) then
    st.map (fun p => if p.1 == k then (k, v) else p)
  else
    st ++ [(k, v)]

/-- The attribute dictionary created by `ConversationState.__init__`
(`current_date`/`current_time` are the construction-time snapshot). -/
def initState (curDate curTime : String) : PyState :=
  [("client_id", .null), ("first_name", .null), ("last_name", .null),
   ("email", .str ""), ("phone_no", .null), ("age", .null), ("gender", .null),
   ("appointment_date", .null), ("appointment_time", .null),
   ("appointment_reason", .null),
   ("conversation_stage", .str "initial"), ("current_task", .null),
   ("waiting_for", .null), ("client_checked", .bool false),
   ("current_date", .str curDate), ("current_time", .str curTime)]

/-- The loop body of `ConversationState.update_from_dict`: merge one dict of
collected data (each existing attribute overwritten only by a non-`None`
value). -/
def mergeDict (st : PyState) (kvs : List (String × Json)) : PyState :=
  kvs.foldl
    (fun s kv =>
      if hasattr s kv.1 && !(kv.2 matches Json.null) then setattr s kv.1 kv.2
      else s)
    st

/-- `ConversationState.update_from_dict(data)`: `data.items()` raises unless
`data` is a dict. -/
def update_from_dict (st : PyState) (data : Json) : Except Unit PyState :=
  match data with
  | .obj kvs => .ok (mergeDict st kvs)
  | _ => .error ()

/-- `ConversationState.has_complete_name`. -/
def has_complete_name (st : PyState) : Bool :=
  (attr st "first_name").truthy && (attr st "last_name").truthy

/-- `ConversationState.has_complete_client_info`. -/
def has_complete_client_info (st : PyState) : Bool :=
  (attr st "first_name").truthy && (attr st "last_name").truthy &&
  (attr st "phone_no").truthy && (attr st "age").truthy &&
  (attr st "gender").truthy

/-- `ConversationState.has_complete_appointment_info`. -/
def has_complete_appointment_info (st : PyState) : Bool :=
  (attr st "appointment_date").truthy && (attr st "appointment_time").truthy &&
  (attr st "appointment_reason").truthy

/-! ### Collaborators, effects and turn inputs -/

/-- Which call site issued a client-existence lookup. -/
inductive LookupOrigin where
  | routing : LookupOrigin
  | functionCall : LookupOrigin
  | clientCreate : LookupOrigin
deriving DecidableEq, Repr

/-- Observable collaborator invocations made during a turn. -/
inductive Effect where
  | lookupClient (origin : LookupOrigin) (first last : Json) : Effect
  | insertClient (firstName lastName email phoneNo gender : String)
      (age : Json) : Effect
  | insertAppointment (clientId apptDate apptTime : Json)
      (reason : String) : Effect
  | fetchAppointments (clientId : Json) : Effect
  | calendarCreate (title : String) (apptDate apptTime : Json)
      (durationMinutes : Int) (details location : String) : Effect
deriving Repr

/-- The injected collaborators.  `db_utils.execute_query` catches every
exception and returns `None` on errors (and always on non-SELECT statements),
and `create_google_calendar_link` catches every exception and returns `None`
on failure, so both are total functions into `Option`. -/
structure Collab where
  /-- Rows returned by the existence SELECT for the interpolated
  `(first_name, last_name)` pair; `none` is a database error. -/
  checkClientRows : Json → Json → Option (List (List Json))
  /-- Rows returned by the appointments SELECT for the interpolated
  `client_id`; `none` is a database error. -/
  appointmentsRows : Json → Option (List (List Json))
  /-- `create_google_calendar_link(title, app_date, app_time, 30, details,
  location)`: the link, or `none` on failure. -/
  calendarLink : String → Json → Json → String → String → Option String

/-- The `llm.query` outputs consumed at each call site of one turn (`none`
models Python `None`, returned when the completion call fails). -/
structure LlmTexts where
  routeText : Option String
  nameText : Option String
  slotText : Option String
  genericText : Option String

/-- The observable outcome of a turn or sub-flow: the session state after it,
the value returned to the caller, and the collaborator invocations made. -/
structure TurnResult where
  state : PyState
  reply : Json
  effects : List Effect
deriving Repr

/-! ### `ReceptionistBrain` helpers -/

/-- `ReceptionistBrain._check_client_exists`: builds the SELECT, executes it,
and shapes the row into the exists/client dict.  A row shorter than the seven
selected columns raises `IndexError`, caught into `None`. -/
def check_client_exists (co : Collab) (orig : LookupOrigin)
    (first last : Json) : Json × List Effect :=
  let eff := [Effect.lookupClient orig first last]
  match co.checkClientRows first last with
  | some (row :: _) =>
    match row.get? 0, row.get? 1, row.get? 2, row.get? 3, row.get? 4,
          row.get? 5, row.get? 6 with
    | some c0, some c1, some c2, some c3, some c4, some c5, some c6 =>
      (.obj [("exists", .bool true),
             ("client", .obj [("client_id", c0), ("first_name", c1),
                              ("last_name", c2), ("email", c3),
                              ("phone_no", c4), ("age", c5),
                              ("gender", c6)])], eff)
    | _, _, _, _, _, _, _ => (.null, eff)
  | some [] => (.obj [("exists", .bool false), ("client", .null)], eff)
  | none => (.obj [("exists", .bool false), ("client", .null)], eff)

/-- One row of the appointments SELECT shaped into a dict (`IndexError` on a
short row). -/
def apptRowToDict (row : List Json) : Except Unit Json :=
  match row.get? 0, row.get? 1, row.get? 2, row.get? 3, row.get? 4 with
  | some c0, some c1, some c2, some c3, some c4 =>
    .ok (.obj [("appointment_id", c0), ("date", c1), ("time", c2),
               ("reason", c3), ("status", c4)])
  | _, _, _, _, _ => .error ()

/-- Shape every row, propagating `IndexError`. -/
def apptRowsToDicts (rows : List (List Json)) : Except Unit (List Json) :=
  match rows with
  | [] => .ok []
  | row :: rest =>
    match apptRowToDict row, apptRowsToDicts rest with
    | .ok d, .ok ds => .ok (d :: ds)
    | _, _ => .error ()

/-- `ReceptionistBrain._get_client_appointments`: a `None` or empty query
result yields the empty list; an `IndexError` while shaping rows is caught
into `None`. -/
def get_client_appointments (co : Collab) (cid : Json) : Json × List Effect :=
  let eff := [Effect.fetchAppointments cid]
  match co.appointmentsRows cid with
  | some (row :: rest) =>
    match apptRowsToDicts (row :: rest) with
    | .ok ds => (.arr ds, eff)
    | .error _ => (.null, eff)
  | some [] => (.arr [], eff)
  | none => (.arr [], eff)

/-- The tail of `_create_client`: `if check_result and
check_result.get("exists"): return check_result["client"]["client_id"]`,
falling through to `None` (any `KeyError`/`TypeError` raised here is caught by
`_create_client`'s handler into `None` as well). -/
def clientIdFromCheck (check_result : Json) : Json :=
  if check_result.truthy then
    match pyGet check_result "exists" with
    | .ok ex =>
      if ex.truthy then
        match pyIndex check_result "client" with
        | .ok c =>
          match pyIndex c "client_id" with
          | .ok v => v
          | .error _ => .null
        | .error _ => .null
      else .null
    | .error _ => .null
  else .null

/-- `ReceptionistBrain._create_client(params)`: escape the five string
fields (`TypeError` on non-strings is caught into `None` before the INSERT is
issued), run the INSERT, then re-look-up the row by raw name to recover the
generated `client_id`.  Returns the id value, or `Json.null` for `None`. -/
def create_client (co : Collab) (params : Json) : Json × List Effect :=
  match params with
  | .obj _ =>
    match Json.getD params "first_name" (.str ""),
          Json.getD params "last_name" (.str ""),
          Json.getD params "email" (.str ""),
          Json.getD params "phone_no" (.str ""),
          Json.getD params "gender" (.str "") with
    | .str fn, .str ln, .str em, .str ph, .str g =>
      let insEff := Effect.insertClient (pyEscape fn) (pyEscape ln)
        (pyEscape em) (pyEscape ph) (pyCapitalize (pyEscape g))
        (Json.getD params "age" .null)
      let (check_result, lookEff) := check_client_exists co .clientCreate
        (Json.getD params "first_name" .null)
        (Json.getD params "last_name" .null)
      (clientIdFromCheck check_result, insEff :: lookEff)
    | _, _, _, _, _ => (.null, [])
  | _ => (.null, [])

/-- `ReceptionistBrain._create_appointment(params)`: escape the reason
(`TypeError` on a non-string caught into `None`), run the INSERT, invoke the
calendar collaborator, and return the success dict — unconditionally marked
successful, with the link (or `None`) it got back. -/
def create_appointment (co : Collab) (st : PyState) (params : Json) :
    Json × List Effect :=
  match params with
  | .obj _ =>
    match Json.getD params "reason" (.str "") with
    | .str rs =>
      let cid := Json.getD params "client_id" .null
      let ad := Json.getD params "appointment_date" .null
      let at_ := Json.getD params "appointment_time" .null
      let title := "Dental Appointment - " ++ pyStr (Json.getD params "reason" .null)
      let details := "Appointment for " ++ pyStr (attr st "first_name") ++ " "
        ++ pyStr (attr st "last_name")
      let link := co.calendarLink title ad at_ details "Dental Clinic"
      (.obj [("success", .bool true),
             ("calendar_link", match link with | some l => .str l | none => .null),
             ("appointment_date", ad), ("appointment_time", at_),
             ("reason", Json.getD params "reason" .null)],
       [Effect.insertAppointment cid ad at_ (pyEscape rs),
        Effect.calendarCreate title ad at_ 30 details "Dental Clinic"])
    | _ => (.null, [])
  | _ => (.null, [])

/-- `ReceptionistBrain._execute_function_call`: dispatch on the requested
function name; any exception (e.g. `.get` on a non-dict) is caught into
`None`, as is an unknown function name. -/
def execute_function_call (co : Collab) (st : PyState) (fc : Json) :
    Json × List Effect :=
  match fc with
  | .obj _ =>
    let fname := Json.getD fc "function" .null
    let params := Json.getD fc "params" (.obj [])
    if jsonEqStr fname "check_client_exists" then
      match params with
      | .obj _ => check_client_exists co .functionCall
          (Json.getD params "first_name" .null)
          (Json.getD params "last_name" .null)
      | _ => (.null, [])
    else if jsonEqStr fname "get_client_appointments" then
      match params with
      | .obj _ => get_client_appointments co (Json.getD params "client_id" .null)
      | _ => (.null, [])
    else if jsonEqStr fname "create_client" then
      create_client co params
    else if jsonEqStr fname "create_appointment" then
      create_appointment co st params
    else (.null, [])
  | _ => (.null, [])

/-! ### Reply formatting (`receptionist.py`) -/

/-- "I'm having trouble understanding. Could you please rephrase that?" -/
def rephraseMsg : String :=
  "I\x27m having trouble understanding. Could you please rephrase that?"

/-- The `process_query` catch-all apology. -/
def apologyMsg : String :=
  "I apologize, I encountered an error. Could you please try again?"

/-- The `_handle_appointment_workflow` catch-all apology. -/
def workflowErrMsg : String :=
  "I apologize, something went wrong. Could you please try again?"

/-- Reply when no name could be extracted. -/
def askNameMsg : String :=
  "To assist you better, could you please provide your full name? (For example: Raj Sharma)"

/-- `_check_and_route_client` exception fallback. -/
def recordsTroubleMsg : String :=
  "I had trouble checking our records. Could you please repeat your name?"

/-- `_handle_existing_client_flow` exception fallback. -/
def existingFallbackMsg : String :=
  "How can I help you today? Would you like to book an appointment or check your appointments?"

/-- `_handle_new_client_flow` exception fallback. -/
def newFallbackMsg : String :=
  "I need a bit more information. Could you please repeat that?"

/-- Reply when the client create yielded no id. -/
def createFailMsg : String :=
  "I had trouble creating your profile. Could you please verify your information?"

/-- `_format_appointment_creation_response` failure reply. -/
def bookFailMsg : String :=
  "I had trouble booking your appointment. Could you please try again?"

/-- `_handle_generic_query` default reply. -/
def genericDefaultMsg : String := "How can I help you today?"

/-- `_handle_generic_query` exception fallback. -/
def genericErrMsg : String := "How can I assist you today?"

/-- Reply for an unrecognized routing target. -/
def unknownAgentMsg : String :=
  "I\x27m not sure how to help with that. Could you please clarify?"

/-- The welcome-back reply for a matched existing client. -/
def welcomeBackMsg (st : PyState) : String :=
  "Welcome back, " ++ pyStr (attr st "first_name") ++ " "
    ++ pyStr (attr st "last_name")
    ++ "! How can I help you today? Would you like to book an appointment or check your existing appointments?"

/-- The nice-to-meet-you reply for a new client. -/
def niceToMeetMsg (st : PyState) : String :=
  "Nice to meet you, " ++ pyStr (attr st "first_name") ++ " "
    ++ pyStr (attr st "last_name")
    ++ "! I\x27ll need a few details to create your profile. Could you please provide your phone number?"

/-- The profile-created reply after a successful client create. -/
def profileCreatedMsg (st : PyState) : String :=
  "Great! I\x27ve created your profile, " ++ pyStr (attr st "first_name")
    ++ ". Now, let\x27s book your appointment. What is the reason for your visit?"

/-- One bullet line of `_format_appointments_response` (bracket accesses may
raise). -/
def apptLine (apt : Json) : Except Unit String :=
  match pyIndex apt "date", pyIndex apt "time", pyIndex apt "reason",
        pyIndex apt "status" with
  | .ok d, .ok t, .ok r, .ok s =>
    .ok ("\xE2€\xA2 " ++ pyStr d ++ " at " ++ pyStr t ++ " - " ++ pyStr r
      ++ " (" ++ pyStr s ++ ")\n")
  | _, _, _, _ => .error ()

/-- All bullet lines, propagating the first exception. -/
def apptLines : List Json → Except Unit String
  | [] => .ok ""
  | a :: rest =>
    match apptLine a, apptLines rest with
    | .ok l, .ok ls => .ok (l ++ ls)
    | _, _ => .error ()

/-- `ReceptionistBrain._format_appointments_response`: `None` and the empty
list get fixed replies; a non-sequence raises `TypeError` at `len()` or while
iterating (an empty string or dict, however, has length 0 and takes the
no-appointments reply). -/
def format_appointments_response (st : PyState) (appointments : Json) :
    Except Unit Json :=
  let noAppts := "You don\x27t have any appointments scheduled, "
    ++ pyStr (attr st "first_name") ++ ". Would you like to book one?"
  match appointments with
  | .null =>
    .ok (.str "I couldn\x27t retrieve your appointments. Please try again.")
  | .arr [] => .ok (.str noAppts)
  | .str "" => .ok (.str noAppts)
  | .obj [] => .ok (.str noAppts)
  | .arr apts =>
    match apptLines apts with
    | .ok body =>
      .ok (.str ("Here are your appointments, " ++ pyStr (attr st "first_name")
        ++ ":\n\n" ++ body ++ "\nWould you like to book another appointment?"))
    | .error _ => .error ()
  | _ => .error ()

/-- `ReceptionistBrain._format_appointment_creation_response`: on a successful
result, build the confirmation (appending the calendar line only for a truthy
link) and only then clear the three appointment fields; anything else gets the
failure reply with the state untouched.  Bracket accesses on a malformed
success dict raise before any field is cleared. -/
def format_appointment_creation_response (st : PyState) (result : Json) :
    Except Unit (PyState × Json) :=
  if result.truthy then
    match pyGet result "success" with
    | .error _ => .error ()
    | .ok succ =>
      if succ.truthy then
        match pyIndex result "appointment_date",
              pyIndex result "appointment_time", pyIndex result "reason" with
        | .ok d, .ok t, .ok r =>
          let response := "Perfect! Your appointment is confirmed for "
            ++ pyStr d ++ " at " ++ pyStr t ++ " for " ++ pyStr r ++ "."
          let cl := Json.getD result "calendar_link" .null
          let response := if cl.truthy then
              response ++ "\n\nAdd to your calendar: " ++ pyStr cl
            else response
          let response := response
            ++ "\n\nIs there anything else I can help you with?"
          let st' := setattr (setattr (setattr st "appointment_date" .null)
            "appointment_time" .null) "appointment_reason" .null
          .ok (st', .str response)
        | _, _, _ => .error ()
      else .ok (st, .str bookFailMsg)
  else .ok (st, .str bookFailMsg)

/-! ### The orchestrator flows (`receptionist.py`) -/

/-- `ReceptionistBrain._check_and_route_client`: one existence lookup, then
`client_checked := True` unconditionally; a match merges the client fields and
moves to `existing_client`, anything else (no match, database error, or the
`None` from an `IndexError` inside the lookup) moves to
`new_client_collecting_info`. -/
def check_and_route_client (co : Collab) (st : PyState) : TurnResult :=
  let looked := check_client_exists co .routing (attr st "first_name")
    (attr st "last_name")
  let client_check := looked.1
  let effs := looked.2
  let st1 := setattr st "client_checked" (.bool true)
  let newClientResult : TurnResult :=
    let st2 := setattr st1 "conversation_stage" (.str "new_client_collecting_info")
    ⟨st2, .str (niceToMeetMsg st2), effs⟩
  if client_check.truthy then
    match pyGet client_check "exists" with
    | .error _ => ⟨st1, .str recordsTroubleMsg, effs⟩
    | .ok ex =>
      if ex.truthy then
        match update_from_dict st1 (Json.getD client_check "client" .null) with
        | .ok st2 =>
          let st3 := setattr st2 "conversation_stage" (.str "existing_client")
          ⟨st3, .str (welcomeBackMsg st3), effs⟩
        | .error _ => ⟨st1, .str recordsTroubleMsg, effs⟩
      else newClientResult
  else newClientResult

/-- `ReceptionistBrain._handle_existing_client_flow`. -/
def handle_existing_client_flow (co : Collab) (slotText : Option String)
    (st : PyState) : TurnResult :=
  let result := parse_json_from_text slotText
  match pyGetD result "action" (.str "collect_info") with
  | .error _ => ⟨st, .str existingFallbackMsg, []⟩
  | .ok action =>
    let bot_response := Json.getD result "response" (.str "")
    let data_collected := Json.getD result "data_collected" (.obj [])
    let function_call := Json.getD result "function_call" .null
    match (if data_collected.truthy then update_from_dict st data_collected
           else .ok st) with
    | .error _ => ⟨st, .str existingFallbackMsg, []⟩
    | .ok st1 =>
      if function_call.truthy then
        let executed := execute_function_call co st1 function_call
        let func_result := executed.1
        let effs := executed.2
        if jsonEqStr action "check_appointments" then
          match format_appointments_response st1 func_result with
          | .ok r => ⟨st1, r, effs⟩
          | .error _ => ⟨st1, .str existingFallbackMsg, effs⟩
        else if jsonEqStr action "create_appointment" then
          match format_appointment_creation_response st1 func_result with
          | .ok (st2, r) => ⟨st2, r, effs⟩
          | .error _ => ⟨st1, .str existingFallbackMsg, effs⟩
        else ⟨st1, bot_response, effs⟩
      else ⟨st1, bot_response, []⟩

/-- `ReceptionistBrain._handle_new_client_flow`: merge collected data; when
client info is complete and there is no `client_id` yet, create the client
from the *state's* fields (`email or ""`); otherwise, when a `client_id` is
held and the appointment info is complete, execute the slot collector's
function call and format the booking result. -/
def handle_new_client_flow (co : Collab) (slotText : Option String)
    (st : PyState) : TurnResult :=
  let result := parse_json_from_text slotText
  match pyGetD result "data_collected" (.obj []) with
  | .error _ => ⟨st, .str newFallbackMsg, []⟩
  | .ok data_collected =>
    let bot_response := Json.getD result "response" (.str "")
    let function_call := Json.getD result "function_call" .null
    match (if data_collected.truthy then update_from_dict st data_collected
           else .ok st) with
    | .error _ => ⟨st, .str newFallbackMsg, []⟩
    | .ok st1 =>
      if has_complete_client_info st1 && !(attr st1 "client_id").truthy then
        let params : Json := .obj
          [("first_name", attr st1 "first_name"),
           ("last_name", attr st1 "last_name"),
           ("email", if (attr st1 "email").truthy then attr st1 "email"
                     else .str ""),
           ("phone_no", attr st1 "phone_no"),
           ("age", attr st1 "age"),
           ("gender", attr st1 "gender")]
        let created := create_client co params
        let client_id := created.1
        let effs := created.2
        if client_id.truthy then
          let st2 := setattr (setattr st1 "client_id" client_id)
            "conversation_stage" (.str "existing_client")
          ⟨st2, .str (profileCreatedMsg st2), effs⟩
        else ⟨st1, .str createFailMsg, effs⟩
      else if (attr st1 "client_id").truthy
          && has_complete_appointment_info st1 then
        if function_call.truthy then
          let executed := execute_function_call co st1 function_call
          match format_appointment_creation_response st1 executed.1 with
          | .ok (st2, r) => ⟨st2, r, executed.2⟩
          | .error _ => ⟨st1, .str newFallbackMsg, executed.2⟩
        else ⟨st1, bot_response, []⟩
      else ⟨st1, bot_response, []⟩

/-- `ReceptionistBrain._handle_generic_query` (no state, no side effects). -/
def handle_generic_query (genericText : Option String) : Json :=
  let result := parse_json_from_text genericText
  match pyGetD result "response" (.str genericDefaultMsg) with
  | .ok r => r
  | .error _ => .str genericErrMsg

/-- `ReceptionistBrain._handle_appointment_workflow`: extract a name when none
is held and check the client in the same turn; with a name held but unchecked,
check now; otherwise branch on `client_id` into the existing- or new-client
flow.  The only exception its own body can raise — `.get` on a failed name
extraction — is caught into the workflow apology. -/
def handle_appointment_workflow (co : Collab) (tx : LlmTexts)
    (st : PyState) : TurnResult :=
  if !has_complete_name st then
    let name_extraction := parse_json_from_text tx.nameText
    match pyGet name_extraction "has_name" with
    | .error _ => ⟨st, .str workflowErrMsg, []⟩
    | .ok hn =>
      if hn.truthy then
        let st1 := setattr st "first_name"
          (Json.getD name_extraction "first_name" .null)
        let st2 := setattr st1 "last_name"
          (Json.getD name_extraction "last_name" .null)
        check_and_route_client co st2
      else ⟨st, .str askNameMsg, []⟩
  else if has_complete_name st && !(attr st "client_checked").truthy then
    check_and_route_client co st
  else if (attr st "client_id").truthy then
    handle_existing_client_flow co tx.slotText st
  else
    handle_new_client_flow co tx.slotText st

/-- `ReceptionistBrain.process_query`: route the utterance, then dispatch to
the generic handler, the appointment workflow, or the clarification replies.
(`_route_query` itself absorbs its exceptions into `None`.) -/
def process_query (co : Collab) (tx : LlmTexts) (st : PyState) : TurnResult :=
  let routing := parse_json_from_text tx.routeText
  if !routing.truthy then ⟨st, .str rephraseMsg, []⟩
  else
    match pyGetD routing "target_agent" (.str "generic_query_handler") with
    | .error _ => ⟨st, .str apologyMsg, []⟩
    | .ok target =>
      if jsonEqStr target "generic_query_handler" then
        ⟨st, handle_generic_query tx.genericText, []⟩
      else if jsonEqStr target "appointment_manager" then
        handle_appointment_workflow co tx st
      else ⟨st, .str unknownAgentMsg, []⟩

/-- Iterated merges across turns: each element is one extraction result passed
to `update_from_dict`; a raising update (non-dict `data`) leaves the state
unchanged, since the exception occurs before any field is written and every
caller catches it. -/
def apply_updates (st : PyState) (updates : List Json) : PyState :=
  updates.foldl
    (fun s u =>
      match update_from_dict s u with
      | .ok s' => s'
      | .error _ => s)
    st

/-! ### Attribute-dictionary lemmas -/

theorem find_setattr_self (st : PyState) (k : String) (v : Json) :
    (setattr st k v).find? (fun p => p.1 == k) = some (k, v) := by
  unfold setattr
  split
  · next h =>
    induction st with
    | nil => simp at h
    | cons p rest ih =>
      by_cases hp : p.1 = k
      · simp [List.find?, hp]
      · have hp' : (p.1 == k) = false := by simp [hp]
        have h' : rest.any (fun p => p.1 == k) = true := by
          simpa [List.any_cons, hp'] using h
        simpa [List.find?, hp'] using ih h'
  · next h =>
    induction st with
    | nil => simp [List.find?]
    | cons p rest ih =>
      have hp : (p.1 == k) = false := by
        by_contra hc
        simp only [Bool.not_eq_false] at hc
        exact h (by simp [List.any_cons, hc])
      have h' : ¬ rest.any (fun p => p.1 == k) = true := fun hr =>
        h (by simp [List.any_cons, hr])
      simpa [List.find?, hp] using ih h'

theorem attr_setattr_self (st : PyState) (k : String) (v : Json) :
    attr (setattr st k v) k = v := by
  simp [attr, find_setattr_self]

theorem find_setattr_ne (st : PyState) (k k' : String) (v : Json)
    (h : k' ≠ k) :
    (setattr st k v).find? (fun p => p.1 == k') =
      st.find? (fun p => p.1 == k') := by
  have hkk' : (k == k') = false := beq_eq_false_iff_ne.mpr (Ne.symm h)
  unfold setattr
  split
  · next hany =>
    clear hany
    induction st with
    | nil => simp
    | cons p rest ih =>
      simp only [List.map_cons]
      by_cases hp : p.1 = k
      · rw [List.find?_cons_of_neg _ (by simp [hp, hkk']),
            List.find?_cons_of_neg _ (by simp [hp, hkk'])]
        exact ih
      · by_cases hq : p.1 = k'
        · rw [List.find?_cons_of_pos _ (by simp [hq, h]),
              List.find?_cons_of_pos _ (by simp [hq])]
          simp [hp]
        · rw [List.find?_cons_of_neg _ (by simp [hp, hq]),
              List.find?_cons_of_neg _ (by simp [hq])]
          exact ih
  · rw [List.find?_append]
    simp [hkk']

theorem attr_setattr_ne (st : PyState) (k k' : String) (v : Json)
    (h : k' ≠ k) : attr (setattr st k v) k' = attr st k' := by
  simp [attr, find_setattr_ne st k k' v h]

theorem mergeDict_nil (st : PyState) : mergeDict st [] = st := rfl

theorem mergeDict_cons (st : PyState) (q : String × Json)
    (rest : List (String × Json)) :
    mergeDict st (q :: rest) =
      mergeDict
        (if hasattr st q.1 && !(q.2 matches Json.null) then setattr st q.1 q.2
         else st)
        rest := rfl

/-- A merge whose entries for key `k` are all `None` (in particular, a merge
that never mentions `k`) leaves attribute `k` unchanged. -/
theorem attr_mergeDict_skip (kvs : List (String × Json)) (st : PyState)
    (k : String) (h : ∀ p ∈ kvs, p.1 = k → p.2 = Json.null) :
    attr (mergeDict st kvs) k = attr st k := by
  induction kvs generalizing st with
  | nil => rfl
  | cons q rest ih =>
    have hrest : ∀ p ∈ rest, p.1 = k → p.2 = Json.null := fun p hp =>
      h p (List.mem_cons_of_mem _ hp)
    rw [mergeDict_cons]
    by_cases hqk : q.1 = k
    · have hqv : q.2 = Json.null := h q (List.mem_cons_self _ _) hqk
      have : (hasattr st q.1 && !(q.2 matches Json.null)) = false := by
        simp [hqv]
      rw [this]
      simp only [Bool.false_eq_true, if_false]
      exact ih st hrest
    · by_cases hg : (hasattr st q.1 && !(q.2 matches Json.null)) = true
      · rw [hg]
        simp only [if_true]
        rw [ih (setattr st q.1 q.2) hrest]
        exact attr_setattr_ne st q.1 k q.2 (fun hc => hqk hc.symm)
      · simp only [Bool.not_eq_true] at hg
        rw [hg]
        simp only [Bool.false_eq_true, if_false]
        exact ih st hrest

/-- `setattr` on an existing attribute preserves the attribute-name list. -/
theorem map_fst_setattr_mem (st : PyState) (k : String) (v : Json)
    (h : st.any (fun p => p.1 == k) = true) :
    (setattr st k v).map Prod.fst = st.map Prod.fst := by
  unfold setattr
  rw [if_pos h, List.map_map]
  apply List.map_congr_left
  intro p _
  by_cases hp : p.1 = k
  · simp [hp]
  · simp [hp]

/-- A merge never changes the attribute-name list. -/
theorem map_fst_mergeDict (kvs : List (String × Json)) (st : PyState) :
    (mergeDict st kvs).map Prod.fst = st.map Prod.fst := by
  induction kvs generalizing st with
  | nil => rfl
  | cons q rest ih =>
    rw [mergeDict_cons]
    by_cases hg : (hasattr st q.1 && !(q.2 matches Json.null)) = true
    · have hmem : st.any (fun p => p.1 == q.1) = true := by
        have h' := hg
        simp only [Bool.and_eq_true] at h'
        exact h'.1
      rw [hg]
      simp only [if_true]
      rw [ih (setattr st q.1 q.2)]
      exact map_fst_setattr_mem st q.1 q.2 hmem
    · simp only [Bool.not_eq_true] at hg
      rw [hg]
      simp only [Bool.false_eq_true, if_false]
      exact ih st

theorem apply_updates_nil (st : PyState) : apply_updates st [] = st := rfl

theorem apply_updates_cons (st : PyState) (u : Json) (rest : List Json) :
    apply_updates st (u :: rest) =
      apply_updates
        (match update_from_dict st u with
         | .ok s' => s'
         | .error _ => st)
        rest := rfl

/-- C2: across any sequence of merges of extracted updates into the session
state (`update_from_dict`), a field holding a non-null value is never
overwritten by an update whose entries for that field are null or absent: its
value afterwards is exactly its value before. -/
theorem c2_merge_preserves_nonnull (st : PyState) (updates : List Json)
    (k : String) (v : Json) (hv : attr st k = v) (hnn : v ≠ Json.null)
    (hupd : ∀ u ∈ updates, ∀ kvs, u = Json.obj kvs →
      ∀ p ∈ kvs, p.1 = k → p.2 = Json.null) :
    attr (apply_updates st updates) k = v := by
  induction updates generalizing st with
  | nil => exact hv
  | cons u rest ih =>
    rw [apply_updates_cons]
    have hrest : ∀ u' ∈ rest, ∀ kvs, u' = Json.obj kvs →
        ∀ p ∈ kvs, p.1 = k → p.2 = Json.null := fun u' hu' =>
      hupd u' (List.mem_cons_of_mem _ hu')
    cases u with
    | obj kvs =>
      have hk : ∀ p ∈ kvs, p.1 = k → p.2 = Json.null :=
        hupd (Json.obj kvs) (List.mem_cons_self _ _) kvs rfl
      simp only [update_from_dict]
      exact ih (mergeDict st kvs) ((attr_mergeDict_skip kvs st k hk).trans hv)
        hrest
    | null => exact ih st hv hrest
    | bool b => exact ih st hv hrest
    | num n => exact ih st hv hrest
    | str s => exact ih st hv hrest
    | arr xs => exact ih st hv hrest

/-- Witness for C2 at a concrete state and update sequence. -/
theorem c2_merge_preserves_nonnull_witness :
    attr (apply_updates [("first_name", Json.str "Raj"), ("age", Json.null)]
      [Json.obj [("first_name", Json.null), ("age", Json.num 30)],
       Json.str "garbage"]) "first_name" = Json.str "Raj" := by
  apply c2_merge_preserves_nonnull _ _ _ _ rfl
  · intro hc
    exact Json.noConfusion hc
  · intro u hu kvs hk p hp hpk
    have := List.mem_cons.mp hu
    rcases this with h1 | h2
    · subst h1
      injection hk with hk'
      subst hk'
      rcases List.mem_cons.mp hp with h3 | h4
      · rw [h3]
      · rcases List.mem_cons.mp h4 with h5 | h6
        · rw [h5] at hpk
          exact absurd hpk (by decide)
        · exact absurd h6 (List.not_mem_nil _)
    · rw [List.mem_singleton] at h2
      subst h2
      exact Json.noConfusion hk

/-- C10: merging an extraction result never changes the set of session-state
attributes — every key of `data` that is not an existing attribute is ignored,
and no new attribute is ever created. -/
theorem c10_no_new_fields (st : PyState) (data : Json) (st' : PyState)
    (h : update_from_dict st data = .ok st') :
    st'.map Prod.fst = st.map Prod.fst := by
  cases data with
  | obj kvs =>
    simp only [update_from_dict, Except.ok.injEq] at h
    rw [← h]
    exact map_fst_mergeDict kvs st
  | null => simp [update_from_dict] at h
  | bool b => simp [update_from_dict] at h
  | num n => simp [update_from_dict] at h
  | str s => simp [update_from_dict] at h
  | arr xs => simp [update_from_dict] at h

/-- Witness for C10: an update full of unknown keys leaves the attribute list
untouched. -/
theorem c10_no_new_fields_witness :
    (mergeDict [("first_name", Json.null), ("age", Json.num 3)]
        [("unknown_key", Json.str "x"), ("first_name", Json.str "A")]).map
        Prod.fst
      = ["first_name", "age"] := by
  have h := c10_no_new_fields [("first_name", Json.null), ("age", Json.num 3)]
    (Json.obj [("unknown_key", Json.str "x"), ("first_name", Json.str "A")])
    (mergeDict [("first_name", Json.null), ("age", Json.num 3)]
      [("unknown_key", Json.str "x"), ("first_name", Json.str "A")])
    rfl
  rw [h]
  rfl

/-! ### Booking (C5, C8) -/

theorem create_appointment_shape (co : Collab) (st : PyState) (params : Json)
    (kvs : List (String × Json)) (rs : String) (hp : params = Json.obj kvs)
    (hr : Json.getD params "reason" (.str "") = Json.str rs) :
    create_appointment co st params =
      (.obj [("success", .bool true),
             ("calendar_link",
               match co.calendarLink
                   ("Dental Appointment - "
                     ++ pyStr (Json.getD params "reason" .null))
                   (Json.getD params "appointment_date" .null)
                   (Json.getD params "appointment_time" .null)
                   ("Appointment for " ++ pyStr (attr st "first_name") ++ " "
                     ++ pyStr (attr st "last_name"))
                   "Dental Clinic" with
                 | some l => .str l
                 | none => .null),
             ("appointment_date", Json.getD params "appointment_date" .null),
             ("appointment_time", Json.getD params "appointment_time" .null),
             ("reason", Json.getD params "reason" .null)],
       [Effect.insertAppointment (Json.getD params "client_id" .null)
          (Json.getD params "appointment_date" .null)
          (Json.getD params "appointment_time" .null) (pyEscape rs),
        Effect.calendarCreate
          ("Dental Appointment - " ++ pyStr (Json.getD params "reason" .null))
          (Json.getD params "appointment_date" .null)
          (Json.getD params "appointment_time" .null) 30
          ("Appointment for " ++ pyStr (attr st "first_name") ++ " "
            ++ pyStr (attr st "last_name"))
          "Dental Clinic"]) := by
  subst hp
  unfold create_appointment
  rw [hr]

/-- Reducing `_format_appointment_creation_response` on the success dict built
by `_create_appointment`. -/
theorem format_success_shape (st : PyState) (cl ad at_ r : Json) :
    format_appointment_creation_response st
      (.obj [("success", .bool true), ("calendar_link", cl),
             ("appointment_date", ad), ("appointment_time", at_),
             ("reason", r)]) =
    .ok (setattr (setattr (setattr st "appointment_date" .null)
           "appointment_time" .null) "appointment_reason" .null,
         .str ((if cl.truthy then
             "Perfect! Your appointment is confirmed for " ++ pyStr ad
               ++ " at " ++ pyStr at_ ++ " for " ++ pyStr r ++ "."
               ++ "\n\nAdd to your calendar: " ++ pyStr cl
           else
             "Perfect! Your appointment is confirmed for " ++ pyStr ad
               ++ " at " ++ pyStr at_ ++ " for " ++ pyStr r ++ ".")
           ++ "\n\nIs there anything else I can help you with?")) := rfl

/-- C5: a successful booking clears exactly the three appointment fields
(`appointment_date`, `appointment_time`, `appointment_reason`) and leaves
every other session field — in particular `first_name`, `last_name` and
`client_id` — untouched; a failed booking clears nothing. -/
theorem c5_booking_clears_appointment_fields (co : Collab) (st : PyState)
    (params : Json) (kvs : List (String × Json)) (rs : String)
    (hp : params = Json.obj kvs)
    (hr : Json.getD params "reason" (.str "") = Json.str rs) :
    (∃ st' msg,
      format_appointment_creation_response st
          (create_appointment co st params).1 = .ok (st', msg) ∧
      attr st' "appointment_date" = Json.null ∧
      attr st' "appointment_time" = Json.null ∧
      attr st' "appointment_reason" = Json.null ∧
      (∀ k, k ≠ "appointment_date" → k ≠ "appointment_time" →
        k ≠ "appointment_reason" → attr st' k = attr st k)) ∧
    format_appointment_creation_response st Json.null =
      .ok (st, .str bookFailMsg) := by
  constructor
  · rw [create_appointment_shape co st params kvs rs hp hr]
    rw [format_success_shape]
    refine ⟨_, _, rfl, ?_, ?_, ?_, ?_⟩
    · exact attr_setattr_ne _ _ _ _ (by decide) |>.trans
        (attr_setattr_ne _ _ _ _ (by decide) |>.trans
          (attr_setattr_self _ _ _))
    · exact attr_setattr_ne _ _ _ _ (by decide) |>.trans
        (attr_setattr_self _ _ _)
    · exact attr_setattr_self _ _ _
    · intro k h1 h2 h3
      rw [attr_setattr_ne _ _ _ _ h3, attr_setattr_ne _ _ _ _ h2,
        attr_setattr_ne _ _ _ _ h1]
  · rfl

/-- Witness for C5 at concrete inputs. -/
theorem c5_booking_clears_appointment_fields_witness :
    ∃ st' msg,
      format_appointment_creation_response
          [("first_name", Json.str "Raj"), ("client_id", Json.num 4),
           ("appointment_date", Json.str "2025-01-02")]
          (create_appointment
            { checkClientRows := fun _ _ => some []
              appointmentsRows := fun _ => some []
              calendarLink := fun _ _ _ _ _ => some "http://cal" }
            [("first_name", Json.str "Raj"), ("client_id", Json.num 4),
             ("appointment_date", Json.str "2025-01-02")]
            (Json.obj [("client_id", Json.num 4),
                       ("appointment_date", Json.str "2025-01-02"),
                       ("appointment_time", Json.str "10:00"),
                       ("reason", Json.str "cleaning")])).1 = .ok (st', msg) ∧
      attr st' "appointment_date" = Json.null ∧
      attr st' "appointment_time" = Json.null ∧
      attr st' "appointment_reason" = Json.null ∧
      attr st' "first_name" = Json.str "Raj" ∧
      attr st' "client_id" = Json.num 4 := by
  obtain ⟨h1, -⟩ := c5_booking_clears_appointment_fields
    { checkClientRows := fun _ _ => some []
      appointmentsRows := fun _ => some []
      calendarLink := fun _ _ _ _ _ => some "http://cal" }
    [("first_name", Json.str "Raj"), ("client_id", Json.num 4),
     ("appointment_date", Json.str "2025-01-02")]
    (Json.obj [("client_id", Json.num 4),
               ("appointment_date", Json.str "2025-01-02"),
               ("appointment_time", Json.str "10:00"),
               ("reason", Json.str "cleaning")])
    [("client_id", Json.num 4), ("appointment_date", Json.str "2025-01-02"),
     ("appointment_time", Json.str "10:00"), ("reason", Json.str "cleaning")]
    "cleaning" rfl rfl
  obtain ⟨st', msg, heq, hd, ht, hr, hframe⟩ := h1
  exact ⟨st', msg, heq, hd, ht, hr,
    (hframe "first_name" (by decide) (by decide) (by decide)).trans rfl,
    (hframe "client_id" (by decide) (by decide) (by decide)).trans rfl⟩

/-- C8: when the appointment INSERT goes through (string reason) but the
calendar collaborator returns no link, the create result still reports
success with a null link, and the confirmation reply omits the calendar
line — the booking is not reported as failed. -/
theorem c8_calendar_failure_nonfatal (co : Collab) (st : PyState)
    (params : Json) (kvs : List (String × Json)) (rs : String)
    (hp : params = Json.obj kvs)
    (hr : Json.getD params "reason" (.str "") = Json.str rs)
    (hcal : co.calendarLink
        ("Dental Appointment - " ++ pyStr (Json.getD params "reason" .null))
        (Json.getD params "appointment_date" .null)
        (Json.getD params "appointment_time" .null)
        ("Appointment for " ++ pyStr (attr st "first_name") ++ " "
          ++ pyStr (attr st "last_name"))
        "Dental Clinic" = none) :
    Json.getD (create_appointment co st params).1 "success" .null =
        Json.bool true ∧
    Json.getD (create_appointment co st params).1 "calendar_link" .null =
        Json.null ∧
    ∃ st',
      format_appointment_creation_response st
          (create_appointment co st params).1 =
        .ok (st',
          .str ("Perfect! Your appointment is confirmed for "
            ++ pyStr (Json.getD params "appointment_date" .null) ++ " at "
            ++ pyStr (Json.getD params "appointment_time" .null) ++ " for "
            ++ pyStr (Json.getD params "reason" .null) ++ "."
            ++ "\n\nIs there anything else I can help you with?")) := by
  rw [create_appointment_shape co st params kvs rs hp hr, hcal]
  exact ⟨rfl, rfl, _, format_success_shape st _ _ _ _⟩

/-- Witness for C8 at concrete inputs. -/
theorem c8_calendar_failure_nonfatal_witness :
    Json.getD (create_appointment
        { checkClientRows := fun _ _ => some []
          appointmentsRows := fun _ => some []
          calendarLink := fun _ _ _ _ _ => none }
        [("first_name", Json.str "Raj"), ("last_name", Json.str "S")]
        (Json.obj [("client_id", Json.num 4),
                   ("appointment_date", Json.str "2025-01-02"),
                   ("appointment_time", Json.str "10:00"),
                   ("reason", Json.str "cleaning")])).1 "success" .null =
      Json.bool true ∧
    ∃ st',
      format_appointment_creation_response
          [("first_name", Json.str "Raj"), ("last_name", Json.str "S")]
          (create_appointment
            { checkClientRows := fun _ _ => some []
              appointmentsRows := fun _ => some []
              calendarLink := fun _ _ _ _ _ => none }
            [("first_name", Json.str "Raj"), ("last_name", Json.str "S")]
            (Json.obj [("client_id", Json.num 4),
                       ("appointment_date", Json.str "2025-01-02"),
                       ("appointment_time", Json.str "10:00"),
                       ("reason", Json.str "cleaning")])).1 =
        .ok (st',
          .str "Perfect! Your appointment is confirmed for 2025-01-02 at 10:00 for cleaning.\n\nIs there anything else I can help you with?") := by
  obtain ⟨h1, -, st', h3⟩ := c8_calendar_failure_nonfatal
    { checkClientRows := fun _ _ => some []
      appointmentsRows := fun _ => some []
      calendarLink := fun _ _ _ _ _ => none }
    [("first_name", Json.str "Raj"), ("last_name", Json.str "S")]
    (Json.obj [("client_id", Json.num 4),
               ("appointment_date", Json.str "2025-01-02"),
               ("appointment_time", Json.str "10:00"),
               ("reason", Json.str "cleaning")])
    [("client_id", Json.num 4), ("appointment_date", Json.str "2025-01-02"),
     ("appointment_time", Json.str "10:00"), ("reason", Json.str "cleaning")]
    "cleaning" rfl rfl rfl
  exact ⟨h1, st', h3⟩

/-! ### JSON extraction (C7) -/

/-- C7 counterexample: the text `{"a": 1} and } done` contains the well-formed
JSON object `{"a": 1}` as its prefix, yet `parse_json_from_text` returns
`None`, because the greedy regex grabs everything up to the *last* `}` and the
whole span is then rejected by `json.loads`. -/
theorem c7_counterexample :
    parse_json_from_text
        (some ("\x7b\x22a\x22: 1\x7d" ++ " and \x7d done")) = Json.null ∧
    jsonLoads "\x7b\x22a\x22: 1\x7d" = some (Json.obj [("a", Json.num 1)]) ∧
    ("\x7b\x22a\x22: 1\x7d" ++ " and \x7d done")
      = "\x7b\x22a\x22: 1\x7d and \x7d done" := by
  refine ⟨?_, ?_, ?_⟩ <;> rfl

/-- C7 amended: the extraction takes the span from the first `{` to the last
`}` of the whole text and feeds that entire span to `json.loads`: prose before
the first `{` and after the last `}` is tolerated, and the result is the
parse of the span when the span is well-formed, `None` otherwise. -/
theorem c7_amended_span_parse (pre mid post : String)
    (hpre : ∀ c ∈ pre.toList, c ≠ lbrace)
    (hpost : ∀ c ∈ post.toList, c ≠ rbrace)
    (hhead : mid.toList.head? = some lbrace)
    (hlast : mid.toList.getLast? = some rbrace) :
    parse_json_from_text (some (pre ++ mid ++ post)) =
      (match jsonLoads mid with
       | some j => j
       | none => Json.null) := by
  obtain ⟨mtail, hm⟩ := List.head?_eq_some_iff.mp hhead
  have hmne : mtail ≠ [] := by
    intro h0
    rw [h0] at hm
    rw [hm] at hlast
    simp only [List.getLast?_singleton, Option.some.injEq] at hlast
    exact absurd hlast (by decide)
  have hmidlen : mid.toList.length = mtail.length + 1 := by
    rw [hm]; rfl
  have hmtpos : 1 ≤ mtail.length := List.length_pos.mpr hmne
  have hdata : (pre ++ mid ++ post).toList
      = pre.toList ++ (mid.toList ++ post.toList) := by
    show (pre ++ mid ++ post).data = pre.data ++ (mid.data ++ post.data)
    rw [String.data_append, String.data_append, List.append_assoc]
  have hprenone : pre.toList.findIdx? (fun c => c == lbrace) = none :=
    List.findIdx?_eq_none_iff.mpr (fun c hc => by simp [hpre c hc])
  have hfirst : firstLbrace ((pre ++ mid ++ post).toList)
      = some pre.toList.length := by
    unfold firstLbrace
    rw [hdata, List.findIdx?_append, hprenone, List.findIdx?_append, hm]
    simp
  have hrevhead : mid.toList.reverse.head? = some rbrace := by
    rw [List.head?_reverse]; exact hlast
  obtain ⟨rtail, hmr⟩ := List.head?_eq_some_iff.mp hrevhead
  have hpostnone : post.toList.reverse.findIdx? (fun c => c == rbrace)
      = none :=
    List.findIdx?_eq_none_iff.mpr (fun c hc => by
      simp [hpost c (List.mem_reverse.mp hc)])
  have hlastIdx : lastRbrace ((pre ++ mid ++ post).toList)
      = some (pre.toList.length + mid.toList.length - 1) := by
    unfold lastRbrace
    rw [hdata, List.reverse_append, List.reverse_append,
      List.findIdx?_append, List.findIdx?_append, hpostnone, hmr]
    have hrr : (rbrace == rbrace) = true := by decide
    have hmrlen : (rbrace :: rtail).length = mid.toList.length := by
      rw [← hmr, List.length_reverse]
    simp only [List.findIdx?_cons, hrr, if_true, Option.map_some',
      Nat.zero_add, Option.none_or, Option.or_some, List.length_append,
      List.length_reverse, Option.some.injEq]
    omega
  have hspan : braceSpan (pre ++ mid ++ post) = some mid := by
    simp only [braceSpan]
    rw [hfirst, hlastIdx]
    dsimp only
    have hij : pre.toList.length < pre.toList.length + mid.toList.length - 1 := by
      omega
    rw [if_pos hij]
    congr 1
    have harith : pre.toList.length + mid.toList.length - 1
        - pre.toList.length + 1 = mid.toList.length := by omega
    rw [hdata, List.drop_left, harith, List.take_left]
    rfl
  have hne : (pre ++ mid ++ post).isEmpty = false := by
    by_contra hc
    simp only [Bool.not_eq_false] at hc
    have hs := (String.isEmpty_iff _).mp hc
    have hd : (pre ++ mid ++ post).toList = [] := by rw [hs]; rfl
    rw [hdata, hm] at hd
    simp at hd
  simp only [parse_json_from_text]
  rw [hne, hspan]
  rfl

/-- Witness for the amended C7 at a concrete prose-wrapped object. -/
theorem c7_amended_span_parse_witness :
    parse_json_from_text (some ("noise " ++ "\x7b\x22a\x22: 2\x7d" ++ " tail"))
      = Json.obj [("a", Json.num 2)] := by
  rw [c7_amended_span_parse "noise " "\x7b\x22a\x22: 2\x7d" " tail"
    (by decide) (by decide) (by decide) (by decide)]
  rfl

/-! ### New-client flow (C4, C9) -/

theorem check_client_exists_rows_cons (co : Collab) (o : LookupOrigin)
    (f l c0 c1 c2 c3 c4 c5 c6 : Json) (rowTail : List Json)
    (rowsTail : List (List Json))
    (h : co.checkClientRows f l =
      some ((c0 :: c1 :: c2 :: c3 :: c4 :: c5 :: c6 :: rowTail) :: rowsTail)) :
    check_client_exists co o f l =
      (.obj [("exists", .bool true),
             ("client", .obj [("client_id", c0), ("first_name", c1),
                              ("last_name", c2), ("email", c3),
                              ("phone_no", c4), ("age", c5),
                              ("gender", c6)])],
       [Effect.lookupClient o f l]) := by
  unfold check_client_exists
  rw [h]
  rfl

theorem check_client_exists_rows_nil (co : Collab) (o : LookupOrigin)
    (f l : Json) (h : co.checkClientRows f l = some []) :
    check_client_exists co o f l =
      (.obj [("exists", .bool false), ("client", .null)],
       [Effect.lookupClient o f l]) := by
  unfold check_client_exists
  rw [h]

theorem check_client_exists_rows_none (co : Collab) (o : LookupOrigin)
    (f l : Json) (h : co.checkClientRows f l = none) :
    check_client_exists co o f l =
      (.obj [("exists", .bool false), ("client", .null)],
       [Effect.lookupClient o f l]) := by
  unfold check_client_exists
  rw [h]

theorem create_client_shape (co : Collab) (fn ln em ph g : String)
    (ag : Json) :
    create_client co
        (.obj [("first_name", .str fn), ("last_name", .str ln),
               ("email", .str em), ("phone_no", .str ph), ("age", ag),
               ("gender", .str g)]) =
      (clientIdFromCheck
         (check_client_exists co .clientCreate (.str fn) (.str ln)).1,
       Effect.insertClient (pyEscape fn) (pyEscape ln) (pyEscape em)
           (pyEscape ph) (pyCapitalize (pyEscape g)) ag
         :: (check_client_exists co .clientCreate (.str fn) (.str ln)).2) :=
  rfl

/-- Both flows reach the same merge step; this discharges the shared prefix of
`_handle_new_client_flow` up to the client-create decision. -/
theorem new_flow_after_merge (co : Collab) (slotText : Option String)
    (st : PyState) (kvs : List (String × Json)) (st1 : PyState)
    (h1 : parse_json_from_text slotText = Json.obj kvs)
    (h2 : (if (Json.getD (Json.obj kvs) "data_collected"
            (Json.obj [])).truthy then
          update_from_dict st
            (Json.getD (Json.obj kvs) "data_collected" (Json.obj []))
        else Except.ok st) = Except.ok st1) :
    handle_new_client_flow co slotText st =
      (if has_complete_client_info st1 && !(attr st1 "client_id").truthy then
        let params : Json := Json.obj
          [("first_name", attr st1 "first_name"),
           ("last_name", attr st1 "last_name"),
           ("email", if (attr st1 "email").truthy then attr st1 "email"
                     else .str ""),
           ("phone_no", attr st1 "phone_no"),
           ("age", attr st1 "age"),
           ("gender", attr st1 "gender")]
        let created := create_client co params
        if created.1.truthy then
          ⟨setattr (setattr st1 "client_id" created.1) "conversation_stage"
             (.str "existing_client"),
           .str (profileCreatedMsg (setattr (setattr st1 "client_id"
             created.1) "conversation_stage" (.str "existing_client"))),
           created.2⟩
        else ⟨st1, .str createFailMsg, created.2⟩
      else if (attr st1 "client_id").truthy
          && has_complete_appointment_info st1 then
        if (Json.getD (Json.obj kvs) "function_call" .null).truthy then
          let executed := execute_function_call co st1
            (Json.getD (Json.obj kvs) "function_call" .null)
          match format_appointment_creation_response st1 executed.1 with
          | .ok (st2, r) => ⟨st2, r, executed.2⟩
          | .error _ => ⟨st1, .str newFallbackMsg, executed.2⟩
        else ⟨st1, Json.getD (Json.obj kvs) "response" (.str ""), []⟩
      else ⟨st1, Json.getD (Json.obj kvs) "response" (.str ""), []⟩) := by
  unfold handle_new_client_flow
  rw [h1]
  dsimp only [pyGetD]
  rw [h2]

/-- C4: in the new-client flow, once the merged state has complete client
info and a null `client_id`, the client-create side effect runs with the
fields held in session state (the `insertClient` effect carries exactly the
state's fields, whatever `function_call` the slot collector returned); if the
post-insert lookup yields a truthy id, `client_id` becomes that id and the
stage becomes `existing_client`; if it yields nothing, the state is left
exactly as it was (null `client_id`, same stage) and the user is asked to
re-verify their details. -/
theorem c4_new_client_create (co : Collab) (slotText : Option String)
    (st : PyState) (kvs : List (String × Json)) (st1 : PyState)
    (fn ln ph g em : String)
    (h1 : parse_json_from_text slotText = Json.obj kvs)
    (h2 : (if (Json.getD (Json.obj kvs) "data_collected"
            (Json.obj [])).truthy then
          update_from_dict st
            (Json.getD (Json.obj kvs) "data_collected" (Json.obj []))
        else Except.ok st) = Except.ok st1)
    (h3 : has_complete_client_info st1 = true)
    (h4 : attr st1 "client_id" = Json.null)
    (h5 : attr st1 "first_name" = Json.str fn)
    (h6 : attr st1 "last_name" = Json.str ln)
    (h7 : attr st1 "phone_no" = Json.str ph)
    (h8 : attr st1 "gender" = Json.str g)
    (h9 : attr st1 "email" = Json.str em) :
    (∀ (c0 c1 c2 c3 c4 c5 c6 : Json) (rowTail : List Json)
        (rowsTail : List (List Json)),
      co.checkClientRows (.str fn) (.str ln) =
          some ((c0 :: c1 :: c2 :: c3 :: c4 :: c5 :: c6 :: rowTail)
            :: rowsTail) →
      c0.truthy = true →
      handle_new_client_flow co slotText st =
        ⟨setattr (setattr st1 "client_id" c0) "conversation_stage"
           (.str "existing_client"),
         .str (profileCreatedMsg (setattr (setattr st1 "client_id" c0)
           "conversation_stage" (.str "existing_client"))),
         [Effect.insertClient (pyEscape fn) (pyEscape ln) (pyEscape em)
            (pyEscape ph) (pyCapitalize (pyEscape g)) (attr st1 "age"),
          Effect.lookupClient .clientCreate (.str fn) (.str ln)]⟩ ∧
      attr (handle_new_client_flow co slotText st).state "client_id" = c0 ∧
      attr (handle_new_client_flow co slotText st).state "client_id"
          ≠ Json.null ∧
      attr (handle_new_client_flow co slotText st).state "conversation_stage"
          = Json.str "existing_client") ∧
    (co.checkClientRows (.str fn) (.str ln) = some [] →
      handle_new_client_flow co slotText st =
        ⟨st1, .str createFailMsg,
         [Effect.insertClient (pyEscape fn) (pyEscape ln) (pyEscape em)
            (pyEscape ph) (pyCapitalize (pyEscape g)) (attr st1 "age"),
          Effect.lookupClient .clientCreate (.str fn) (.str ln)]⟩ ∧
      attr (handle_new_client_flow co slotText st).state "client_id"
          = Json.null) := by
  have hemail : (if (attr st1 "email").truthy then attr st1 "email"
      else Json.str "") = Json.str em := by
    rw [h9]
    by_cases he : (Json.str em).truthy
    · rw [if_pos he]
    · rw [if_neg he]
      have he2 : em.isEmpty = true := by
        simpa [Json.truthy] using he
      rw [(String.isEmpty_iff em).mp he2]
  have hred := new_flow_after_merge co slotText st kvs st1 h1 h2
  rw [h5, h6, h7, h8, hemail, h3, h4] at hred
  have hcondtrue : (true && !(Json.null).truthy) = true := rfl
  rw [hcondtrue, if_pos rfl] at hred
  dsimp only [] at hred
  rw [create_client_shape] at hred
  constructor
  · intro c0 c1 c2 c3 c4 c5 c6 rowTail rowsTail hrows hc0
    rw [check_client_exists_rows_cons co .clientCreate (.str fn) (.str ln)
      c0 c1 c2 c3 c4 c5 c6 rowTail rowsTail hrows] at hred
    have hcid : clientIdFromCheck
        (Json.obj [("exists", Json.bool true),
          ("client", Json.obj [("client_id", c0), ("first_name", c1),
            ("last_name", c2), ("email", c3), ("phone_no", c4),
            ("age", c5), ("gender", c6)])]) = c0 := rfl
    rw [hcid, hc0, if_pos rfl] at hred
    refine ⟨hred, ?_, ?_, ?_⟩
    · rw [hred]
      show attr (setattr (setattr st1 "client_id" c0) "conversation_stage"
        (.str "existing_client")) "client_id" = c0
      rw [attr_setattr_ne _ _ _ _ (by decide), attr_setattr_self]
    · rw [hred]
      show attr (setattr (setattr st1 "client_id" c0) "conversation_stage"
        (.str "existing_client")) "client_id" ≠ Json.null
      rw [attr_setattr_ne _ _ _ _ (by decide), attr_setattr_self]
      intro hnull
      rw [hnull] at hc0
      exact absurd hc0 (by decide)
    · rw [hred]
      show attr (setattr (setattr st1 "client_id" c0) "conversation_stage"
        (.str "existing_client")) "conversation_stage"
        = Json.str "existing_client"
      rw [attr_setattr_self]
  · intro hrows
    rw [check_client_exists_rows_nil co .clientCreate (.str fn) (.str ln)
      hrows] at hred
    have hcid : clientIdFromCheck
        (Json.obj [("exists", Json.bool false), ("client", Json.null)])
        = Json.null := rfl
    dsimp only [] at hred
    rw [hcid] at hred
    rw [if_neg (by decide)] at hred
    exact ⟨hred, by rw [hred]; exact h4⟩

/-- Witness for C4 (successful-create branch) at concrete inputs. -/
theorem c4_new_client_create_witness :
    attr (TurnResult.state (handle_new_client_flow
        { checkClientRows := fun _ _ =>
            some [[Json.num 9, Json.str "Raj", Json.str "Sharma",
              Json.str "", Json.str "123", Json.num 30, Json.str "Male"]]
          appointmentsRows := fun _ => some []
          calendarLink := fun _ _ _ _ _ => some "http://cal" }
        (some "\x7b\x22response\x22: \x22ok\x22\x7d")
        [("client_id", Json.null), ("first_name", Json.str "Raj"),
         ("last_name", Json.str "Sharma"), ("email", Json.str ""),
         ("phone_no", Json.str "123"), ("age", Json.num 30),
         ("gender", Json.str "male"),
         ("conversation_stage", Json.str "new_client_collecting_info")]))
      "client_id" = Json.num 9 := by
  obtain ⟨hsucc, -⟩ := c4_new_client_create
    { checkClientRows := fun _ _ =>
        some [[Json.num 9, Json.str "Raj", Json.str "Sharma",
          Json.str "", Json.str "123", Json.num 30, Json.str "Male"]]
      appointmentsRows := fun _ => some []
      calendarLink := fun _ _ _ _ _ => some "http://cal" }
    (some "\x7b\x22response\x22: \x22ok\x22\x7d")
    [("client_id", Json.null), ("first_name", Json.str "Raj"),
     ("last_name", Json.str "Sharma"), ("email", Json.str ""),
     ("phone_no", Json.str "123"), ("age", Json.num 30),
     ("gender", Json.str "male"),
     ("conversation_stage", Json.str "new_client_collecting_info")]
    [("response", Json.str "ok")]
    [("client_id", Json.null), ("first_name", Json.str "Raj"),
     ("last_name", Json.str "Sharma"), ("email", Json.str ""),
     ("phone_no", Json.str "123"), ("age", Json.num 30),
     ("gender", Json.str "male"),
     ("conversation_stage", Json.str "new_client_collecting_info")]
    "Raj" "Sharma" "123" "male" "" rfl rfl rfl rfl rfl rfl rfl rfl rfl
  obtain ⟨-, hcid, -, -⟩ := hsucc (Json.num 9) (Json.str "Raj")
    (Json.str "Sharma") (Json.str "") (Json.str "123") (Json.num 30)
    (Json.str "Male") [] [] rfl rfl
  exact hcid

set_option maxRecDepth 8192 in
/-- C9 counterexample: the claim's "consequently the client-create and
appointment-create side effects never fire while any required field is 0 or
empty-string" fails as stated — the existing-client flow executes a
slot-collector `function_call` without consulting the completeness
predicates, so an appointment INSERT fires although the session's
`appointment_reason` is the empty string (making
`has_complete_appointment_info` false). -/
theorem c9_counterexample :
    attr [("first_name", Json.str "Rohit"), ("last_name", Json.str "Sharma"),
        ("client_id", Json.num 7), ("appointment_reason", Json.str "")]
      "appointment_reason" = Json.str "" ∧
    has_complete_appointment_info
      [("first_name", Json.str "Rohit"), ("last_name", Json.str "Sharma"),
       ("client_id", Json.num 7), ("appointment_reason", Json.str "")]
      = false ∧
    Effect.insertAppointment (Json.num 7) (Json.str "2025-01-02")
        (Json.str "10:00") "cleaning" ∈
      (TurnResult.effects (handle_existing_client_flow
        { checkClientRows := fun _ _ => some []
          appointmentsRows := fun _ => some []
          calendarLink := fun _ _ _ _ _ => some "http://cal" }
        (some "\x7b\x22action\x22: \x22collect_info\x22, \x22response\x22: \x22ok\x22, \x22function_call\x22: \x7b\x22function\x22: \x22create_appointment\x22, \x22params\x22: \x7b\x22client_id\x22: 7, \x22appointment_date\x22: \x222025-01-02\x22, \x22appointment_time\x22: \x2210:00\x22, \x22reason\x22: \x22cleaning\x22\x7d\x7d\x7d")
        [("first_name", Json.str "Rohit"), ("last_name", Json.str "Sharma"),
         ("client_id", Json.num 7), ("appointment_reason", Json.str "")])) := by
  refine ⟨rfl, rfl, ?_⟩
  have heff : (TurnResult.effects (handle_existing_client_flow
      { checkClientRows := fun _ _ => some []
        appointmentsRows := fun _ => some []
        calendarLink := fun _ _ _ _ _ => some "http://cal" }
      (some "\x7b\x22action\x22: \x22collect_info\x22, \x22response\x22: \x22ok\x22, \x22function_call\x22: \x7b\x22function\x22: \x22create_appointment\x22, \x22params\x22: \x7b\x22client_id\x22: 7, \x22appointment_date\x22: \x222025-01-02\x22, \x22appointment_time\x22: \x2210:00\x22, \x22reason\x22: \x22cleaning\x22\x7d\x7d\x7d")
      [("first_name", Json.str "Rohit"), ("last_name", Json.str "Sharma"),
       ("client_id", Json.num 7), ("appointment_reason", Json.str "")])) =
      [Effect.insertAppointment (Json.num 7) (Json.str "2025-01-02")
         (Json.str "10:00") "cleaning",
       Effect.calendarCreate "Dental Appointment - cleaning"
         (Json.str "2025-01-02") (Json.str "10:00") 30
         "Appointment for Rohit Sharma" "Dental Clinic"] := rfl
  rw [heff]
  exact List.mem_cons_self _ _

/-- C9 amended: the completeness predicates follow Python truthiness —
`has_complete_client_info` is false when `age` is `0` or any of `first_name`,
`last_name`, `phone_no`, `gender` is the empty string, and
`has_complete_appointment_info` is false when any of the three appointment
fields is the empty string; consequently the side effects *gated by these
predicates* (the state-driven client create, and the appointment create in
the new-client flow) do not fire then: the new-client flow issues no side
effect at all and just returns the slot collector's `response` text.
(Function-call executions in the existing-client flow are not gated by these
predicates — see the counterexample.) -/
theorem c9_amended_truthiness_gates :
    (∀ st : PyState, attr st "age" = Json.num 0 →
      has_complete_client_info st = false) ∧
    (∀ st : PyState, attr st "first_name" = Json.str "" →
      has_complete_client_info st = false) ∧
    (∀ st : PyState, attr st "last_name" = Json.str "" →
      has_complete_client_info st = false) ∧
    (∀ st : PyState, attr st "phone_no" = Json.str "" →
      has_complete_client_info st = false) ∧
    (∀ st : PyState, attr st "gender" = Json.str "" →
      has_complete_client_info st = false) ∧
    (∀ st : PyState, attr st "appointment_date" = Json.str "" →
      has_complete_appointment_info st = false) ∧
    (∀ st : PyState, attr st "appointment_time" = Json.str "" →
      has_complete_appointment_info st = false) ∧
    (∀ st : PyState, attr st "appointment_reason" = Json.str "" →
      has_complete_appointment_info st = false) ∧
    (∀ (co : Collab) (slotText : Option String) (st : PyState)
        (kvs : List (String × Json)) (st1 : PyState),
      parse_json_from_text slotText = Json.obj kvs →
      (if (Json.getD (Json.obj kvs) "data_collected"
            (Json.obj [])).truthy then
          update_from_dict st
            (Json.getD (Json.obj kvs) "data_collected" (Json.obj []))
        else Except.ok st) = Except.ok st1 →
      has_complete_client_info st1 = false →
      ((attr st1 "client_id").truthy = false ∨
        has_complete_appointment_info st1 = false) →
      handle_new_client_flow co slotText st =
        ⟨st1, Json.getD (Json.obj kvs) "response" (.str ""), []⟩) := by
  have hstr : (Json.str "").truthy = false := rfl
  have hzero : (Json.num 0).truthy = false := rfl
  refine ⟨?_, ?_, ?_, ?_, ?_, ?_, ?_, ?_, ?_⟩
  · intro st h
    simp [has_complete_client_info, h, hzero]
  · intro st h
    simp [has_complete_client_info, h, hstr]
  · intro st h
    simp [has_complete_client_info, h, hstr]
  · intro st h
    simp [has_complete_client_info, h, hstr]
  · intro st h
    simp [has_complete_client_info, h, hstr]
  · intro st h
    simp [has_complete_appointment_info, h, hstr]
  · intro st h
    simp [has_complete_appointment_info, h, hstr]
  · intro st h
    simp [has_complete_appointment_info, h, hstr]
  · intro co slotText st kvs st1 h1 h2 hcc hdisj
    have hred := new_flow_after_merge co slotText st kvs st1 h1 h2
    rw [hcc] at hred
    simp only [Bool.false_and] at hred
    rw [if_neg (by decide)] at hred
    rcases hdisj with hid | happt
    · rw [hid] at hred
      simp only [Bool.false_and] at hred
      rw [if_neg (by decide)] at hred
      exact hred
    · rw [happt] at hred
      simp only [Bool.and_false] at hred
      rw [if_neg (by decide)] at hred
      exact hred

/-- Witness for the amended C9: zero age falsifies the completeness
predicate, and the new-client flow with an empty required field performs no
side effect. -/
theorem c9_amended_truthiness_gates_witness :
    has_complete_client_info
      [("first_name", Json.str "A"), ("last_name", Json.str "B"),
       ("phone_no", Json.str "1"), ("age", Json.num 0),
       ("gender", Json.str "Male")] = false ∧
    handle_new_client_flow
      { checkClientRows := fun _ _ => some []
        appointmentsRows := fun _ => some []
        calendarLink := fun _ _ _ _ _ => some "http://cal" }
      (some "\x7b\x22response\x22: \x22need more\x22\x7d")
      [("client_id", Json.null), ("first_name", Json.str "A"),
       ("last_name", Json.str "B"), ("phone_no", Json.str "1"),
       ("age", Json.num 0), ("gender", Json.str "Male")] =
      ⟨[("client_id", Json.null), ("first_name", Json.str "A"),
        ("last_name", Json.str "B"), ("phone_no", Json.str "1"),
        ("age", Json.num 0), ("gender", Json.str "Male")],
       Json.str "need more", []⟩ := by
  obtain ⟨ha, -, -, -, -, -, -, -, hflow⟩ := c9_amended_truthiness_gates
  refine ⟨ha _ rfl, ?_⟩
  have := hflow
    { checkClientRows := fun _ _ => some []
      appointmentsRows := fun _ => some []
      calendarLink := fun _ _ _ _ _ => some "http://cal" }
    (some "\x7b\x22response\x22: \x22need more\x22\x7d")
    [("client_id", Json.null), ("first_name", Json.str "A"),
     ("last_name", Json.str "B"), ("phone_no", Json.str "1"),
     ("age", Json.num 0), ("gender", Json.str "Male")]
    [("response", Json.str "need more")]
    [("client_id", Json.null), ("first_name", Json.str "A"),
     ("last_name", Json.str "B"), ("phone_no", Json.str "1"),
     ("age", Json.num 0), ("gender", Json.str "Male")]
    rfl rfl (ha _ rfl) (Or.inl rfl)
  rw [this]
  rfl

/-! ### Existing-client flow (C6) -/

theorem jsonEqStr_eq_true_iff {j : Json} {s : String} :
    jsonEqStr j s = true ↔ j = Json.str s := by
  cases j <;> simp [jsonEqStr]

/-- Discharges the shared prefix of `_handle_existing_client_flow` up to the
function-call decision. -/
theorem existing_flow_after_merge (co : Collab) (slotText : Option String)
    (st : PyState) (kvs : List (String × Json)) (st1 : PyState)
    (h1 : parse_json_from_text slotText = Json.obj kvs)
    (h2 : (if (Json.getD (Json.obj kvs) "data_collected"
            (Json.obj [])).truthy then
          update_from_dict st
            (Json.getD (Json.obj kvs) "data_collected" (Json.obj []))
        else Except.ok st) = Except.ok st1) :
    handle_existing_client_flow co slotText st =
      (if (Json.getD (Json.obj kvs) "function_call" .null).truthy then
        let executed := execute_function_call co st1
          (Json.getD (Json.obj kvs) "function_call" .null)
        if jsonEqStr (Json.getD (Json.obj kvs) "action" (.str "collect_info"))
            "check_appointments" then
          match format_appointments_response st1 executed.1 with
          | .ok r => ⟨st1, r, executed.2⟩
          | .error _ => ⟨st1, .str existingFallbackMsg, executed.2⟩
        else if jsonEqStr (Json.getD (Json.obj kvs) "action"
            (.str "collect_info")) "create_appointment" then
          match format_appointment_creation_response st1 executed.1 with
          | .ok (st2, r) => ⟨st2, r, executed.2⟩
          | .error _ => ⟨st1, .str existingFallbackMsg, executed.2⟩
        else ⟨st1, Json.getD (Json.obj kvs) "response" (.str ""), executed.2⟩
      else ⟨st1, Json.getD (Json.obj kvs) "response" (.str ""), []⟩) := by
  unfold handle_existing_client_flow
  rw [h1]
  dsimp only [pyGetD]
  rw [h2]

/-- C6: in the existing-client flow, a present `function_call` is always
executed (the turn's side effects are exactly the executed call's); its result
shapes the reply only for the `check_appointments` and `create_appointment`
actions, and for every other action the reply is the slot collector's
`response` text verbatim. -/
theorem c6_function_call_formatting (co : Collab) (slotText : Option String)
    (st : PyState) (kvs : List (String × Json)) (st1 : PyState)
    (h1 : parse_json_from_text slotText = Json.obj kvs)
    (h2 : (if (Json.getD (Json.obj kvs) "data_collected"
            (Json.obj [])).truthy then
          update_from_dict st
            (Json.getD (Json.obj kvs) "data_collected" (Json.obj []))
        else Except.ok st) = Except.ok st1)
    (h3 : (Json.getD (Json.obj kvs) "function_call" .null).truthy = true) :
    ((handle_existing_client_flow co slotText st).effects =
      (execute_function_call co st1
        (Json.getD (Json.obj kvs) "function_call" .null)).2) ∧
    (jsonEqStr (Json.getD (Json.obj kvs) "action" (.str "collect_info"))
        "check_appointments" = false →
      jsonEqStr (Json.getD (Json.obj kvs) "action" (.str "collect_info"))
        "create_appointment" = false →
      handle_existing_client_flow co slotText st =
        ⟨st1, Json.getD (Json.obj kvs) "response" (.str ""),
         (execute_function_call co st1
           (Json.getD (Json.obj kvs) "function_call" .null)).2⟩) ∧
    (∀ r, jsonEqStr (Json.getD (Json.obj kvs) "action" (.str "collect_info"))
        "check_appointments" = true →
      format_appointments_response st1 (execute_function_call co st1
        (Json.getD (Json.obj kvs) "function_call" .null)).1 = .ok r →
      handle_existing_client_flow co slotText st =
        ⟨st1, r, (execute_function_call co st1
          (Json.getD (Json.obj kvs) "function_call" .null)).2⟩) ∧
    (∀ st2 r, jsonEqStr (Json.getD (Json.obj kvs) "action"
        (.str "collect_info")) "create_appointment" = true →
      format_appointment_creation_response st1 (execute_function_call co st1
        (Json.getD (Json.obj kvs) "function_call" .null)).1 = .ok (st2, r) →
      handle_existing_client_flow co slotText st =
        ⟨st2, r, (execute_function_call co st1
          (Json.getD (Json.obj kvs) "function_call" .null)).2⟩) := by
  have hred := existing_flow_after_merge co slotText st kvs st1 h1 h2
  rw [h3, if_pos rfl] at hred
  dsimp only [] at hred
  refine ⟨?_, ?_, ?_, ?_⟩
  · rw [hred]
    by_cases hA : jsonEqStr (Json.getD (Json.obj kvs) "action"
        (.str "collect_info")) "check_appointments" = true
    · rw [hA, if_pos rfl]
      rcases hfmt : format_appointments_response st1
          (execute_function_call co st1
            (Json.getD (Json.obj kvs) "function_call" .null)).1 with e | r
      · rfl
      · rfl
    · rw [if_neg hA]
      by_cases hB : jsonEqStr (Json.getD (Json.obj kvs) "action"
          (.str "collect_info")) "create_appointment" = true
      · rw [hB, if_pos rfl]
        rcases hfmt : format_appointment_creation_response st1
            (execute_function_call co st1
              (Json.getD (Json.obj kvs) "function_call" .null)).1
          with e | ⟨st2, r⟩
        · rfl
        · rfl
      · rw [if_neg hB]
  · intro hA hB
    rw [hred, hA, hB]
    rfl
  · intro r hA hfmt
    rw [hred, hA, if_pos rfl, hfmt]
  · intro st2 r hB hfmt
    rw [hred, hB]
    by_cases hA : jsonEqStr (Json.getD (Json.obj kvs) "action"
        (.str "collect_info")) "check_appointments" = true
    · rw [jsonEqStr_eq_true_iff.mp hA] at hB
      exact absurd hB (by decide)
    · rw [if_neg hA, if_pos rfl, hfmt]

set_option maxRecDepth 8192 in
/-- Witness for C6 (other-action branch) at concrete inputs: the function
call is executed (its fetch effect appears) yet the reply is the collector's
`response` text verbatim. -/
theorem c6_function_call_formatting_witness :
    handle_existing_client_flow
      { checkClientRows := fun _ _ => some []
        appointmentsRows := fun _ => some []
        calendarLink := fun _ _ _ _ _ => some "http://cal" }
      (some "\x7b\x22action\x22: \x22collect_info\x22, \x22response\x22: \x22Noted!\x22, \x22function_call\x22: \x7b\x22function\x22: \x22get_client_appointments\x22, \x22params\x22: \x7b\x22client_id\x22: 7\x7d\x7d\x7d")
      [("first_name", Json.str "Rohit"), ("client_id", Json.num 7)] =
    ⟨[("first_name", Json.str "Rohit"), ("client_id", Json.num 7)],
     Json.str "Noted!", [Effect.fetchAppointments (Json.num 7)]⟩ := by
  obtain ⟨-, hother, -, -⟩ := c6_function_call_formatting
    { checkClientRows := fun _ _ => some []
      appointmentsRows := fun _ => some []
      calendarLink := fun _ _ _ _ _ => some "http://cal" }
    (some "\x7b\x22action\x22: \x22collect_info\x22, \x22response\x22: \x22Noted!\x22, \x22function_call\x22: \x7b\x22function\x22: \x22get_client_appointments\x22, \x22params\x22: \x7b\x22client_id\x22: 7\x7d\x7d\x7d")
    [("first_name", Json.str "Rohit"), ("client_id", Json.num 7)]
    [("action", Json.str "collect_info"), ("response", Json.str "Noted!"),
     ("function_call", Json.obj [("function",
        Json.str "get_client_appointments"),
      ("params", Json.obj [("client_id", Json.num 7)])])]
    [("first_name", Json.str "Rohit"), ("client_id", Json.num 7)]
    rfl rfl rfl
  rw [hother rfl rfl]
  rfl

/-! ### Routing and soft failures (C3, C1) -/

/-- When the routing decision parses to a dict targeting
`appointment_manager`, `process_query` delegates to the appointment
workflow. -/
theorem process_query_appt (co : Collab) (tx : LlmTexts) (st : PyState)
    (kvs : List (String × Json))
    (h1 : parse_json_from_text tx.routeText = Json.obj kvs)
    (h2 : (Json.obj kvs).truthy = true)
    (h3 : Json.getD (Json.obj kvs) "target_agent"
      (.str "generic_query_handler") = Json.str "appointment_manager") :
    process_query co tx st = handle_appointment_workflow co tx st := by
  unfold process_query
  rw [h1]
  dsimp only []
  rw [h2]
  rw [if_neg (by decide)]
  dsimp only [pyGetD]
  rw [h3]
  rfl

/-- When the routing decision parses to a dict targeting
`generic_query_handler`, `process_query` delegates to the generic handler
without touching the state or issuing effects. -/
theorem process_query_generic (co : Collab) (tx : LlmTexts) (st : PyState)
    (kvs : List (String × Json))
    (h1 : parse_json_from_text tx.routeText = Json.obj kvs)
    (h2 : (Json.obj kvs).truthy = true)
    (h3 : Json.getD (Json.obj kvs) "target_agent"
      (.str "generic_query_handler") = Json.str "generic_query_handler") :
    process_query co tx st =
      ⟨st, handle_generic_query tx.genericText, []⟩ := by
  unfold process_query
  rw [h1]
  dsimp only []
  rw [h2]
  rw [if_neg (by decide)]
  dsimp only [pyGetD]
  rw [h3]
  rfl

/-- An unparseable slot-collection response aborts the existing-client flow
before anything happens. -/
theorem existing_flow_parse_failure (co : Collab) (slotText : Option String)
    (st : PyState) (h : parse_json_from_text slotText = Json.null) :
    handle_existing_client_flow co slotText st =
      ⟨st, .str existingFallbackMsg, []⟩ := by
  unfold handle_existing_client_flow
  rw [h]
  rfl

/-- An unparseable slot-collection response aborts the new-client flow before
anything happens. -/
theorem new_flow_parse_failure (co : Collab) (slotText : Option String)
    (st : PyState) (h : parse_json_from_text slotText = Json.null) :
    handle_new_client_flow co slotText st =
      ⟨st, .str newFallbackMsg, []⟩ := by
  unfold handle_new_client_flow
  rw [h]
  rfl

/-- C3: whenever the external completion service returns text from which no
JSON can be parsed — on the classification call, the name-extraction call, or
the slot-collection call of either client flow (and likewise the generic
handler's call) — `process_query` returns a generic clarifying reply, leaves
every session-state field exactly as it was, and performs no side effect; no
exception escapes (the embedding is a total function). -/
theorem c3_parse_failure_soft :
    (∀ (co : Collab) (tx : LlmTexts) (st : PyState),
      parse_json_from_text tx.routeText = Json.null →
      process_query co tx st = ⟨st, .str rephraseMsg, []⟩) ∧
    (∀ (co : Collab) (tx : LlmTexts) (st : PyState)
        (kvs : List (String × Json)),
      parse_json_from_text tx.routeText = Json.obj kvs →
      (Json.obj kvs).truthy = true →
      Json.getD (Json.obj kvs) "target_agent" (.str "generic_query_handler")
        = Json.str "appointment_manager" →
      has_complete_name st = false →
      parse_json_from_text tx.nameText = Json.null →
      process_query co tx st = ⟨st, .str workflowErrMsg, []⟩) ∧
    (∀ (co : Collab) (tx : LlmTexts) (st : PyState)
        (kvs : List (String × Json)),
      parse_json_from_text tx.routeText = Json.obj kvs →
      (Json.obj kvs).truthy = true →
      Json.getD (Json.obj kvs) "target_agent" (.str "generic_query_handler")
        = Json.str "appointment_manager" →
      has_complete_name st = true →
      (attr st "client_checked").truthy = true →
      (attr st "client_id").truthy = true →
      parse_json_from_text tx.slotText = Json.null →
      process_query co tx st = ⟨st, .str existingFallbackMsg, []⟩) ∧
    (∀ (co : Collab) (tx : LlmTexts) (st : PyState)
        (kvs : List (String × Json)),
      parse_json_from_text tx.routeText = Json.obj kvs →
      (Json.obj kvs).truthy = true →
      Json.getD (Json.obj kvs) "target_agent" (.str "generic_query_handler")
        = Json.str "appointment_manager" →
      has_complete_name st = true →
      (attr st "client_checked").truthy = true →
      (attr st "client_id").truthy = false →
      parse_json_from_text tx.slotText = Json.null →
      process_query co tx st = ⟨st, .str newFallbackMsg, []⟩) ∧
    (∀ (co : Collab) (tx : LlmTexts) (st : PyState)
        (kvs : List (String × Json)),
      parse_json_from_text tx.routeText = Json.obj kvs →
      (Json.obj kvs).truthy = true →
      Json.getD (Json.obj kvs) "target_agent" (.str "generic_query_handler")
        = Json.str "generic_query_handler" →
      parse_json_from_text tx.genericText = Json.null →
      process_query co tx st = ⟨st, .str genericErrMsg, []⟩) := by
  refine ⟨?_, ?_, ?_, ?_, ?_⟩
  · intro co tx st h
    unfold process_query
    rw [h]
    rfl
  · intro co tx st kvs h1 h2 h3 hname hne
    rw [process_query_appt co tx st kvs h1 h2 h3]
    unfold handle_appointment_workflow
    rw [hname, hne]
    rfl
  · intro co tx st kvs h1 h2 h3 hname hchecked hid hslot
    rw [process_query_appt co tx st kvs h1 h2 h3]
    unfold handle_appointment_workflow
    rw [hname, hchecked, hid]
    rw [if_neg (by decide), if_neg (by decide), if_pos rfl]
    exact existing_flow_parse_failure co tx.slotText st hslot
  · intro co tx st kvs h1 h2 h3 hname hchecked hid hslot
    rw [process_query_appt co tx st kvs h1 h2 h3]
    unfold handle_appointment_workflow
    rw [hname, hchecked, hid]
    rw [if_neg (by decide), if_neg (by decide), if_neg (by decide)]
    exact new_flow_parse_failure co tx.slotText st hslot
  · intro co tx st kvs h1 h2 h3 hg
    rw [process_query_generic co tx st kvs h1 h2 h3]
    unfold handle_generic_query
    rw [hg]
    rfl

/-- Witness for C3 (classification failure) at concrete inputs. -/
theorem c3_parse_failure_soft_witness :
    process_query
      { checkClientRows := fun _ _ => some []
        appointmentsRows := fun _ => some []
        calendarLink := fun _ _ _ _ _ => some "http://cal" }
      { routeText := some "sorry, no structured answer here"
        nameText := none
        slotText := none
        genericText := none }
      (initState "2025-01-01" "10:00") =
    ⟨initState "2025-01-01" "10:00", .str rephraseMsg, []⟩ := by
  obtain ⟨hroute, -, -, -, -⟩ := c3_parse_failure_soft
  exact hroute
    { checkClientRows := fun _ _ => some []
      appointmentsRows := fun _ => some []
      calendarLink := fun _ _ _ _ _ => some "http://cal" }
    { routeText := some "sorry, no structured answer here"
      nameText := none
      slotText := none
      genericText := none }
    (initState "2025-01-01" "10:00") rfl

/-! ### The single-lookup rule (C1) -/

/-- A client-existence lookup always records exactly its one database call. -/
theorem check_client_exists_effects (co : Collab) (o : LookupOrigin)
    (f l : Json) :
    (check_client_exists co o f l).2 = [Effect.lookupClient o f l] := by
  unfold check_client_exists
  split
  · split <;> rfl
  · rfl
  · rfl

/-- The result of a client-existence lookup takes one of three shapes:
`None` (a short row), a no-match dict, or a full match dict. -/
theorem check_client_exists_fst (co : Collab) (o : LookupOrigin)
    (f l : Json) :
    (check_client_exists co o f l).1 = Json.null ∨
    (check_client_exists co o f l).1 =
      Json.obj [("exists", Json.bool false), ("client", Json.null)] ∨
    ∃ c0 c1 c2 c3 c4 c5 c6,
      (check_client_exists co o f l).1 =
        Json.obj [("exists", Json.bool true),
          ("client", Json.obj [("client_id", c0), ("first_name", c1),
            ("last_name", c2), ("email", c3), ("phone_no", c4),
            ("age", c5), ("gender", c6)])] := by
  unfold check_client_exists
  split
  · split
    · right; right
      exact ⟨_, _, _, _, _, _, _, rfl⟩
    · left; rfl
  · right; left; rfl
  · right; left; rfl

/-- The client dict merged on a match never touches `client_checked` (nor any
attribute outside the seven identity fields). -/
theorem client_dict_skips (c0 c1 c2 c3 c4 c5 c6 : Json) (k : String)
    (hk : k ∉ ["client_id", "first_name", "last_name", "email", "phone_no",
      "age", "gender"]) :
    ∀ p ∈ [("client_id", c0), ("first_name", c1), ("last_name", c2),
      ("email", c3), ("phone_no", c4), ("age", c5), ("gender", c6)],
      p.1 = k → p.2 = Json.null := by
  intro p hp hpk
  simp only [List.mem_cons, List.not_mem_nil, or_false] at hp
  rcases hp with rfl | rfl | rfl | rfl | rfl | rfl | rfl <;>
    (rw [← hpk] at hk; simp at hk)

/-- `_check_and_route_client` always performs exactly one (routing-origin)
existence lookup and always sets `client_checked` to `True`, whatever the
database returns. -/
theorem check_and_route_client_spec (co : Collab) (st : PyState) :
    (check_and_route_client co st).effects =
      [Effect.lookupClient .routing (attr st "first_name")
        (attr st "last_name")] ∧
    attr (check_and_route_client co st).state "client_checked"
      = Json.bool true := by
  unfold check_and_route_client
  dsimp only []
  rw [check_client_exists_effects co .routing (attr st "first_name")
    (attr st "last_name")]
  rcases check_client_exists_fst co .routing (attr st "first_name")
      (attr st "last_name") with hcc | hcc | ⟨c0, c1, c2, c3, c4, c5, c6, hcc⟩
  · rw [hcc]
    rw [if_neg (by decide)]
    exact ⟨rfl, by
      rw [attr_setattr_ne _ _ _ _ (by decide), attr_setattr_self]⟩
  · rw [hcc]
    have htr : (Json.obj [("exists", Json.bool false),
        ("client", Json.null)]).truthy = true := rfl
    rw [htr, if_pos rfl]
    dsimp only [pyGet, pyGetD]
    rw [if_neg (by decide)]
    exact ⟨rfl, by
      rw [attr_setattr_ne _ _ _ _ (by decide), attr_setattr_self]⟩
  · rw [hcc]
    have htr : (Json.obj [("exists", Json.bool true),
        ("client", Json.obj [("client_id", c0), ("first_name", c1),
          ("last_name", c2), ("email", c3), ("phone_no", c4),
          ("age", c5), ("gender", c6)])]).truthy = true := rfl
    rw [htr, if_pos rfl]
    dsimp only [pyGet, pyGetD]
    have hex : (Json.getD (Json.obj [("exists", Json.bool true),
        ("client", Json.obj [("client_id", c0), ("first_name", c1),
          ("last_name", c2), ("email", c3), ("phone_no", c4),
          ("age", c5), ("gender", c6)])]) "exists" Json.null) = Json.bool true
      := rfl
    rw [hex]
    rw [show (Json.bool true).truthy = true from rfl, if_pos rfl]
    have hclient : (Json.obj [("exists", Json.bool true),
        ("client", Json.obj [("client_id", c0), ("first_name", c1),
          ("last_name", c2), ("email", c3), ("phone_no", c4),
          ("age", c5), ("gender", c6)])]).getD "client" Json.null
      = Json.obj [("client_id", c0), ("first_name", c1), ("last_name", c2),
          ("email", c3), ("phone_no", c4), ("age", c5), ("gender", c6)] := rfl
    rw [hclient]
    dsimp only [update_from_dict]
    refine ⟨rfl, ?_⟩
    rw [attr_setattr_ne _ _ _ _ (by decide)]
    rw [attr_mergeDict_skip _ _ _ (client_dict_skips c0 c1 c2 c3 c4 c5 c6
      "client_checked" (by decide))]
    rw [attr_setattr_self]

theorem get_client_appointments_effects (co : Collab) (cid : Json) :
    (get_client_appointments co cid).2 = [Effect.fetchAppointments cid] := by
  unfold get_client_appointments
  split
  · split <;> rfl
  · rfl
  · rfl

/-- A client create issues only its INSERT and its `clientCreate`-origin
re-lookup: never a routing-origin lookup. -/
theorem create_client_no_routing_lookup (co : Collab) (params f l : Json) :
    Effect.lookupClient .routing f l ∉ (create_client co params).2 := by
  unfold create_client
  split
  · split
    · dsimp only []
      rw [check_client_exists_effects]
      simp
    · simp
  · simp

/-- An appointment create issues only its INSERT and the calendar call. -/
theorem create_appointment_no_routing_lookup (co : Collab) (st : PyState)
    (params f l : Json) :
    Effect.lookupClient .routing f l ∉ (create_appointment co st params).2 := by
  unfold create_appointment
  split
  · split
    · simp
    · simp
  · simp

/-- Executing a slot collector's function call never issues a routing-origin
existence lookup (its lookups carry the `functionCall` or `clientCreate`
origin). -/
theorem exec_no_routing_lookup (co : Collab) (st : PyState) (fc f l : Json) :
    Effect.lookupClient .routing f l ∉ (execute_function_call co st fc).2 := by
  unfold execute_function_call
  split
  · dsimp only []
    split
    · split
      · rw [check_client_exists_effects]
        simp
      · simp
    · split
      · split
        · rw [get_client_appointments_effects]
          simp
        · simp
      · split
        · exact create_client_no_routing_lookup co _ f l
        · split
          · exact create_appointment_no_routing_lookup co st _ f l
          · simp
  · simp

theorem existing_flow_no_routing_lookup (co : Collab)
    (slotText : Option String) (st : PyState) (f l : Json) :
    Effect.lookupClient .routing f l ∉
      (handle_existing_client_flow co slotText st).effects := by
  unfold handle_existing_client_flow
  dsimp only []
  repeat' split
  all_goals dsimp only []
  all_goals first
    | simp
    | exact exec_no_routing_lookup co _ _ f l

theorem new_flow_no_routing_lookup (co : Collab) (slotText : Option String)
    (st : PyState) (f l : Json) :
    Effect.lookupClient .routing f l ∉
      (handle_new_client_flow co slotText st).effects := by
  unfold handle_new_client_flow
  dsimp only []
  repeat' split
  all_goals dsimp only []
  all_goals first
    | simp
    | exact create_client_no_routing_lookup co _ f l
    | exact exec_no_routing_lookup co _ _ f l

/-- Step 1 of the workflow: a name extracted from the current utterance is
stored and the client check runs in the same turn. -/
theorem workflow_extract_name (co : Collab) (tx : LlmTexts) (st : PyState)
    (nkvs : List (String × Json))
    (hname : has_complete_name st = false)
    (hne : parse_json_from_text tx.nameText = Json.obj nkvs)
    (hhn : (Json.getD (Json.obj nkvs) "has_name" Json.null).truthy = true) :
    handle_appointment_workflow co tx st =
      check_and_route_client co
        (setattr (setattr st "first_name"
          (Json.getD (Json.obj nkvs) "first_name" Json.null)) "last_name"
          (Json.getD (Json.obj nkvs) "last_name" Json.null)) := by
  unfold handle_appointment_workflow
  rw [hname]
  rw [if_pos (by decide)]
  rw [hne]
  dsimp only [pyGet, pyGetD]
  rw [hhn, if_pos rfl]

/-- Step 2 of the workflow: a held but unchecked name triggers the client
check. -/
theorem workflow_check_client (co : Collab) (tx : LlmTexts) (st : PyState)
    (hname : has_complete_name st = true)
    (hchecked : (attr st "client_checked").truthy = false) :
    handle_appointment_workflow co tx st = check_and_route_client co st := by
  unfold handle_appointment_workflow
  rw [hname]
  rw [if_neg (by decide)]
  rw [hchecked]
  rw [if_pos (by decide)]

/-- Step 3 of the workflow: with the name held and checked, the turn goes to
one of the two client flows. -/
theorem workflow_later_turn (co : Collab) (tx : LlmTexts) (st : PyState)
    (hname : has_complete_name st = true)
    (hchecked : (attr st "client_checked").truthy = true) :
    handle_appointment_workflow co tx st =
      (if (attr st "client_id").truthy then
        handle_existing_client_flow co tx.slotText st
      else handle_new_client_flow co tx.slotText st) := by
  unfold handle_appointment_workflow
  rw [hname]
  rw [if_neg (by decide)]
  rw [hchecked]
  rw [if_neg (by decide)]

/-- C1: on an appointment-routed turn — (1) the turn in which a complete name
first becomes known from extraction, and (2) any turn entered with a complete
name held and `client_checked` false — the orchestrator performs exactly one
(routing-origin) client-existence lookup, in that same turn, and sets
`client_checked` to `True` unconditionally, whatever the database collaborator
returns (including errors).  (3) On every later appointment-routed turn with
the name held and `client_checked` truthy, the routing rules issue no
existence lookup: any lookup in the trace carries a `functionCall` or
`clientCreate` origin. -/
theorem c1_single_lookup :
    (∀ (co : Collab) (tx : LlmTexts) (st : PyState)
        (kvs nkvs : List (String × Json)),
      parse_json_from_text tx.routeText = Json.obj kvs →
      (Json.obj kvs).truthy = true →
      Json.getD (Json.obj kvs) "target_agent" (.str "generic_query_handler")
        = Json.str "appointment_manager" →
      has_complete_name st = false →
      attr st "client_checked" = Json.bool false →
      parse_json_from_text tx.nameText = Json.obj nkvs →
      (Json.getD (Json.obj nkvs) "has_name" Json.null).truthy = true →
      (Json.getD (Json.obj nkvs) "first_name" Json.null).truthy = true →
      (Json.getD (Json.obj nkvs) "last_name" Json.null).truthy = true →
      (process_query co tx st).effects =
        [Effect.lookupClient .routing
          (Json.getD (Json.obj nkvs) "first_name" Json.null)
          (Json.getD (Json.obj nkvs) "last_name" Json.null)] ∧
      attr (process_query co tx st).state "client_checked"
        = Json.bool true) ∧
    (∀ (co : Collab) (tx : LlmTexts) (st : PyState)
        (kvs : List (String × Json)),
      parse_json_from_text tx.routeText = Json.obj kvs →
      (Json.obj kvs).truthy = true →
      Json.getD (Json.obj kvs) "target_agent" (.str "generic_query_handler")
        = Json.str "appointment_manager" →
      has_complete_name st = true →
      (attr st "client_checked").truthy = false →
      (process_query co tx st).effects =
        [Effect.lookupClient .routing (attr st "first_name")
          (attr st "last_name")] ∧
      attr (process_query co tx st).state "client_checked"
        = Json.bool true) ∧
    (∀ (co : Collab) (tx : LlmTexts) (st : PyState)
        (kvs : List (String × Json)),
      parse_json_from_text tx.routeText = Json.obj kvs →
      (Json.obj kvs).truthy = true →
      Json.getD (Json.obj kvs) "target_agent" (.str "generic_query_handler")
        = Json.str "appointment_manager" →
      has_complete_name st = true →
      (attr st "client_checked").truthy = true →
      ∀ f l, Effect.lookupClient .routing f l ∉
        (process_query co tx st).effects) := by
  refine ⟨?_, ?_, ?_⟩
  · intro co tx st kvs nkvs h1 h2 h3 hname hchecked hne hhn hfn hln
    rw [process_query_appt co tx st kvs h1 h2 h3]
    rw [workflow_extract_name co tx st nkvs hname hne hhn]
    obtain ⟨he, hc⟩ := check_and_route_client_spec co
      (setattr (setattr st "first_name"
        (Json.getD (Json.obj nkvs) "first_name" Json.null)) "last_name"
        (Json.getD (Json.obj nkvs) "last_name" Json.null))
    rw [attr_setattr_self] at he
    rw [attr_setattr_ne _ _ _ _ (by decide), attr_setattr_self] at he
    exact ⟨he, hc⟩
  · intro co tx st kvs h1 h2 h3 hname hchecked
    rw [process_query_appt co tx st kvs h1 h2 h3]
    rw [workflow_check_client co tx st hname hchecked]
    exact check_and_route_client_spec co st
  · intro co tx st kvs h1 h2 h3 hname hchecked f l
    rw [process_query_appt co tx st kvs h1 h2 h3]
    rw [workflow_later_turn co tx st hname hchecked]
    by_cases hid : (attr st "client_id").truthy = true
    · rw [if_pos hid]
      exact existing_flow_no_routing_lookup co tx.slotText st f l
    · rw [if_neg hid]
      exact new_flow_no_routing_lookup co tx.slotText st f l

/-- Witness for C1 (held-name, unchecked turn) at concrete inputs: exactly
one routing-origin lookup, and `client_checked` becomes true even though the
database errored. -/
theorem c1_single_lookup_witness :
    (process_query
      { checkClientRows := fun _ _ => none
        appointmentsRows := fun _ => none
        calendarLink := fun _ _ _ _ _ => none }
      { routeText := some "\x7b\x22target_agent\x22: \x22appointment_manager\x22\x7d"
        nameText := none
        slotText := none
        genericText := none }
      [("first_name", Json.str "Raj"), ("last_name", Json.str "S"),
       ("client_checked", Json.bool false)]).effects =
      [Effect.lookupClient .routing (Json.str "Raj") (Json.str "S")] ∧
    attr (TurnResult.state (process_query
      { checkClientRows := fun _ _ => none
        appointmentsRows := fun _ => none
        calendarLink := fun _ _ _ _ _ => none }
      { routeText := some "\x7b\x22target_agent\x22: \x22appointment_manager\x22\x7d"
        nameText := none
        slotText := none
        genericText := none }
      [("first_name", Json.str "Raj"), ("last_name", Json.str "S"),
       ("client_checked", Json.bool false)])) "client_checked"
      = Json.bool true := by
  obtain ⟨-, hstep2, -⟩ := c1_single_lookup
  exact hstep2
    { checkClientRows := fun _ _ => none
      appointmentsRows := fun _ => none
      calendarLink := fun _ _ _ _ _ => none }
    { routeText := some "\x7b\x22target_agent\x22: \x22appointment_manager\x22\x7d"
      nameText := none
      slotText := none
      genericText := none }
    [("first_name", Json.str "Raj"), ("last_name", Json.str "S"),
     ("client_checked", Json.bool false)]
    [("target_agent", Json.str "appointment_manager")]
    rfl rfl rfl rfl rfl

end Clinic
